import Mathlib

/-!
Verification development for the aws_hackathon repository (python-server).

The Python sources are shallowly embedded:
* loose JSON-like Python values (dicts, lists, strings, ...) become the
  inductive type `JValue` below; dicts are association lists that keep
  insertion order, mirroring CPython dict semantics;
* Python exceptions become `Except` values; a `try/except` boundary in the
  source becomes an explicit `match` on the `Except`;
* stateful methods on `MimicPatient` / the session manager become functions
  that thread the state explicitly;
* external library calls (`json.loads`, `json.dumps`, HTTP requests through
  `requests.get`, `uuid.uuid4`, wall-clock time, Python's string `hash`)
  are oracle parameters collected in environment structures: they are
  external collaborators, not code of this repository.
-/

/-- JSON-like Python value (the loose resource mappings of the repository).
Dicts are insertion-ordered association lists as in CPython. -/
inductive JValue where
  | nullV : JValue
  | boolV (b : Bool) : JValue
  | intV (n : Int) : JValue
  | strV (s : String) : JValue
  | arrV (xs : List JValue) : JValue
  | objV (fields : List (String × JValue)) : JValue
deriving Repr

namespace JValue

/-- Python dict `get`: first binding of the key, if the value is a dict. -/
def lookup : JValue → String → Option JValue
  | objV fields, k => (fields.find? (fun p => p.1 = k)).map Prod.snd
  | _, _ => none

/-- Python dict `get` with a default value. -/
def lookupD (v : JValue) (k : String) (d : JValue) : JValue :=
  (v.lookup k).getD d

/-- Python truthiness of a JSON-like value. -/
def truthy : JValue → Bool
  | nullV => false
  | boolV b => b
  | intV n => n != 0
  | strV s => s ≠ ""
  | arrV xs => !xs.isEmpty
  | objV fields => !fields.isEmpty

/-- View a value as a string, defaulting to `""` (used where the source
only ever sees strings in that position). -/
def asStrD : JValue → String
  | strV s => s
  | _ => ""

/-- View a value as a string, if it is one. -/
def asString? : JValue → Option String
  | strV s => some s
  | _ => none

/-- View a value as a list of elements; non-lists give `[]` (used where the
source iterates over a field that is a JSON array in every real payload). -/
def asListD : JValue → List JValue
  | arrV xs => xs
  | _ => []

/-- Is the value a JSON array (Python `isinstance(x, list)`)? -/
def isArr : JValue → Bool
  | arrV _ => true
  | _ => false

/-- Is the value a JSON object (Python `isinstance(x, dict)`)? -/
def isObj : JValue → Bool
  | objV _ => true
  | _ => false

/-- Is the value a JSON string (Python `isinstance(x, str)`)? -/
def isStr : JValue → Bool
  | strV _ => true
  | _ => false

end JValue

/-- Update (or append) a key in an insertion-ordered dict, as Python
`d[k] = v`: an existing binding is overwritten in place, a fresh key is
appended at the end. -/
def objSet (fields : List (String × JValue)) (k : String) (v : JValue) :
    List (String × JValue) :=
  if fields.any (fun p => p.1 = k) then
    fields.map (fun p => if p.1 = k then (k, v) else p)
  else
    fields ++ [(k, v)]

/-- `d[k] = v` on a `JValue` known to be a dict (non-dicts are returned
unchanged; the callers below only apply it to dicts). -/
def jObjSet (v : JValue) (k : String) (x : JValue) : JValue :=
  match v with
  | JValue.objV fields => JValue.objV (objSet fields k x)
  | other => other

/-- Is `needle` a contiguous sublist of `hay`? (structural, so that the
kernel can evaluate it). -/
def listIsInfix (needle : List Char) : List Char → Bool
  | [] => needle.isEmpty
  | c :: t => needle.isPrefixOf (c :: t) || listIsInfix needle t

/-- Python substring test `needle in hay` for strings. -/
def pyInStr (needle hay : String) : Bool :=
  listIsInfix needle.data hay.data

/-- Python `str.isdigit` restricted to ASCII digits (all MIMIC identifiers
are ASCII): non-empty and every character a digit. -/
def pyIsDigit (s : String) : Bool :=
  !s.data.isEmpty && s.data.all Char.isDigit

/-- Python `str.lower()` (ASCII data in this repository). -/
def pyLower (s : String) : String :=
  String.mk (s.data.map Char.toLower)

/-- Python `str.strip()`. -/
def pyStrip (s : String) : String :=
  String.mk (((s.data.dropWhile Char.isWhitespace).reverse.dropWhile
    Char.isWhitespace).reverse)

/-- Python `str.startswith(pre)`. -/
def pyStartsWith (s pre : String) : Bool :=
  pre.data.isPrefixOf s.data

/-- Helper for `pySplitWs`: split a character list on whitespace runs. -/
def splitWsAux : List Char → List Char → List String
  | [], acc => if acc.isEmpty then [] else [String.mk acc.reverse]
  | c :: rest, acc =>
    if c = ' ' then
      if acc.isEmpty then splitWsAux rest []
      else String.mk acc.reverse :: splitWsAux rest []
    else splitWsAux rest (c :: acc)

/-- Python `str.split()` (split on whitespace, dropping empty fields);
the sources only ever contain plain spaces. -/
def pySplitWs (s : String) : List String :=
  splitWsAux s.data []

/-- Split a character list on a separator character, keeping empty
segments (the behaviour of `str.split(sep)`). -/
def splitOnCharAux (sep : Char) : List Char → List Char → List (List Char)
  | [], acc => [acc.reverse]
  | c :: rest, acc =>
    if c = sep then acc.reverse :: splitOnCharAux sep rest []
    else splitOnCharAux sep rest (c :: acc)

/-- Digits-only decimal parse of a character list (`int(...)` on clean
input; `none` where Python would raise). -/
def charsToNat? (cs : List Char) : Option Nat :=
  if cs.isEmpty then none
  else if cs.all Char.isDigit then
    some (cs.foldl (fun n c => n * 10 + (c.toNat - 48)) 0)
  else none

/-- Python `str.replace(pat, repl)` (fuel-bounded structural recursion;
the fuel is the string length, which always suffices). -/
def pyReplaceAux (pat repl : List Char) : Nat → List Char → List Char
  | 0, cs => cs
  | _, [] => []
  | fuel + 1, c :: rest =>
    if !pat.isEmpty && pat.isPrefixOf (c :: rest) then
      repl ++ pyReplaceAux pat repl fuel ((c :: rest).drop pat.length)
    else c :: pyReplaceAux pat repl fuel rest

/-- Python `str.replace(pat, repl)`. -/
def pyReplace (s pat repl : String) : String :=
  String.mk (pyReplaceAux pat.data repl.data s.data.length s.data)

/-- Is the value exactly the given Python string (the `== "literal"`
comparisons the sources make on loose values)? -/
def isStrEq (v : JValue) (s : String) : Bool :=
  match v with
  | JValue.strV t => t = s
  | _ => false

section Dates

/-- A calendar date (proleptic Gregorian), the day-resolution model of the
timestamps handled by `pandas.to_datetime` in the sources. -/
structure Date where
  year : Int
  month : Int
  day : Int
deriving Repr, DecidableEq

/-- Day count of a civil date (days since 1970-01-01, Hinnant's
`days_from_civil` algorithm); subtracting two of these is the model of
`(pandas.Timestamp - pandas.Timestamp).days`. -/
def daysFromCivil (d : Date) : Int :=
  let y : Int := if d.month ≤ 2 then d.year - 1 else d.year
  let era : Int := (if 0 ≤ y then y else y - 399).fdiv 400
  let yoe : Int := y - era * 400
  let mp : Int := if 2 < d.month then d.month - 3 else d.month + 9
  let doy : Int := (153 * mp + 2).fdiv 5 + d.day - 1
  let doe : Int := yoe * 365 + yoe.fdiv 4 - yoe.fdiv 100 + doy
  era * 146097 + doe - 719468

/-- Parse the leading `YYYY-MM-DD` of an ISO-8601 date or datetime string,
the formats the repository feeds to `pandas.to_datetime`. Returns `none`
for unparseable input (the model of `pandas` raising). -/
def parseIsoDate (s : String) : Option Date :=
  let t := s.data.take 10
  match (splitOnCharAux '-' t []).map charsToNat? with
  | [some y, some m, some d] =>
      if 1 ≤ m && m ≤ 12 && 1 ≤ d && d ≤ 31 then
        some ⟨(y : Int), (m : Int), (d : Int)⟩
      else none
  | _ => none

/-- `pandas.to_datetime` on a loose value: only strings parse; anything
else raises (returns `none`). -/
def toDatetime (v : JValue) : Option Date :=
  match v with
  | JValue.strV s => parseIsoDate s
  | _ => none

/-- Zero-padded `YYYY-MM-DD` rendering (`strftime("%Y-%m-%d")`). -/
def dateToIso (d : Date) : String :=
  let pad2 : Int → String := fun n =>
    if n < 10 then "0" ++ toString n else toString n
  toString d.year ++ "-" ++ pad2 d.month ++ "-" ++ pad2 d.day

end Dates

/-! ## Patient State Aggregator (integration/mimic_patient_class.py)

Fields that the Python class fills from `.get` calls on loose resource
mappings are kept as `JValue` (they hold whatever the resource held);
`data_frames` (pandas) and the matplotlib dashboard are external
collaborators and are not part of the state model. -/

/-- `Demographics` dataclass. -/
structure Demographics where
  patient_id : JValue := JValue.strV ""
  mimic_id : JValue := JValue.strV ""
  name : JValue := JValue.strV ""
  gender : JValue := JValue.strV ""
  birth_date : JValue := JValue.strV ""
  deceased_date : JValue := JValue.nullV
  marital_status : JValue := JValue.strV ""
  race : JValue := JValue.strV ""
  ethnicity : JValue := JValue.strV ""
  birth_sex : JValue := JValue.strV ""
  age_at_admission : JValue := JValue.nullV
  is_deceased : Bool := false
deriving Repr

/-- `ClinicalData` dataclass: the ordered clinical sequences. -/
structure ClinicalData where
  observations : List JValue := []
  conditions : List JValue := []
  medications : List JValue := []
  medication_administrations : List JValue := []
  medication_requests : List JValue := []
  encounters : List JValue := []
  procedures : List JValue := []
  locations : List JValue := []
  specimens : List JValue := []
  vital_signs : List JValue := []
  lab_results : List JValue := []
  microbiology : List JValue := []
  timeline : List JValue := []
deriving Repr

/-- `MimicPatient` mutable state (`data_frames` omitted: pandas-only). -/
structure MimicPatient where
  demographics : Demographics := {}
  clinical_data : ClinicalData := {}
  raw_resources : List (String × JValue) := []
  analysis_cache : List (String × JValue) := []
  follow_up_appointments : List JValue := []
deriving Repr

/-- `MimicPatient.__init__(patient_id)`. -/
def MimicPatient.init (patient_id : Option String) : MimicPatient :=
  match patient_id with
  | some pid => { demographics := { patient_id := JValue.strV pid } }
  | none => {}

namespace MimicPatient

/-- `_extract_code_display`: display text of a CodeableConcept. -/
def extract_code_display (code_obj : JValue) : JValue :=
  if !code_obj.truthy then JValue.strV ""
  else if (code_obj.lookup "text").isSome then code_obj.lookupD "text" JValue.nullV
  else
    let codings := (code_obj.lookupD "coding" (JValue.arrV [])).asListD
    let rec firstDisplay : List JValue → JValue
      | [] => JValue.strV ""
      | c :: rest =>
        if (c.lookup "display").isSome then c.lookupD "display" JValue.nullV
        else if (c.lookup "code").isSome then c.lookupD "code" JValue.nullV
        else firstDisplay rest
    firstDisplay codings

/-- `_extract_coding_display`: display text of a Coding wrapper. -/
def extract_coding_display (coding_obj : JValue) : JValue :=
  if !coding_obj.truthy then JValue.strV ""
  else
    match (coding_obj.lookupD "coding" (JValue.arrV [])).asListD with
    | [] => JValue.strV ""
    | coding :: _ => coding.lookupD "display" (coding.lookupD "code" (JValue.strV ""))

/-- `_extract_observation_components`. -/
def extract_observation_components (components : List JValue) : List JValue :=
  components.map (fun comp =>
    let comp_data : List (String × JValue) :=
      [("code", extract_code_display (comp.lookupD "code" (JValue.objV []))),
       ("value_quantity", comp.lookupD "valueQuantity" JValue.nullV),
       ("value_string", comp.lookupD "valueString" JValue.nullV),
       ("value_codeable_concept", comp.lookupD "valueCodeableConcept" JValue.nullV)]
    let vq := (comp.lookupD "valueQuantity" JValue.nullV)
    if vq.truthy then
      JValue.objV (objSet (objSet comp_data "value_numeric" (vq.lookupD "value" JValue.nullV))
        "unit" (vq.lookupD "unit" JValue.nullV))
    else JValue.objV comp_data)

/-- `_get_observation_category`. -/
def get_observation_category (resource : JValue) : String :=
  let categories := (resource.lookupD "category" (JValue.arrV [])).asListD
  let rec scan : List JValue → String
    | [] => "other"
    | cat :: rest =>
      let codings := (cat.lookupD "coding" (JValue.arrV [])).asListD
      let rec scanCodings : List JValue → Option String
        | [] => none
        | coding :: more =>
          let code := pyLower ((coding.lookupD "code" (JValue.strV "")).asStrD)
          if pyInStr "vital" code || pyInStr "vital-signs" code then some "vital-signs"
          else if pyInStr "laboratory" code then some "laboratory"
          else if pyInStr "survey" code then some "survey"
          else scanCodings more
      match scanCodings codings with
      | some c => c
      | none => scan rest
  scan categories

/-- `_extract_observation_data`. -/
def extract_observation_data (resource : JValue) : JValue :=
  let observation : List (String × JValue) :=
    [("id", resource.lookupD "id" JValue.nullV),
     ("status", resource.lookupD "status" JValue.nullV),
     ("category", JValue.arrV (((resource.lookupD "category" (JValue.arrV [])).asListD).map
        extract_coding_display)),
     ("code", resource.lookupD "code" (JValue.objV [])),
     ("code_display", extract_code_display (resource.lookupD "code" (JValue.objV []))),
     ("effective_date", resource.lookupD "effectiveDateTime" JValue.nullV),
     ("issued_date", resource.lookupD "issued" JValue.nullV),
     ("value_quantity", resource.lookupD "valueQuantity" JValue.nullV),
     ("value_string", resource.lookupD "valueString" JValue.nullV),
     ("value_codeable_concept", resource.lookupD "valueCodeableConcept" JValue.nullV),
     ("value_boolean", resource.lookupD "valueBoolean" JValue.nullV),
     ("components", JValue.arrV (extract_observation_components
        ((resource.lookupD "component" (JValue.arrV [])).asListD))),
     ("reference_range", resource.lookupD "referenceRange" (JValue.arrV [])),
     ("raw_resource", resource)]
  let vq := resource.lookupD "valueQuantity" JValue.nullV
  if vq.truthy then
    JValue.objV (objSet (objSet observation "value_numeric" (vq.lookupD "value" JValue.nullV))
      "unit" (vq.lookupD "unit" JValue.nullV))
  else
    let comps := extract_observation_components
      ((resource.lookupD "component" (JValue.arrV [])).asListD)
    if !comps.isEmpty then
      let rec firstNumeric : List JValue → Option JValue
        | [] => none
        | comp :: rest =>
          if (comp.lookupD "value_numeric" JValue.nullV).truthy then some comp
          else firstNumeric rest
      match firstNumeric comps with
      | some comp =>
        JValue.objV (objSet (objSet observation "value_numeric"
          (comp.lookupD "value_numeric" JValue.nullV)) "unit" (comp.lookupD "unit" JValue.nullV))
      | none => JValue.objV observation
    else JValue.objV observation

/-- `_get_event_description`. -/
def get_event_description (event_type : String) (data : JValue) : JValue :=
  if event_type = "observation" then data.lookupD "code_display" (JValue.strV "Observation")
  else if event_type = "condition" then data.lookupD "code" (JValue.strV "Condition")
  else if event_type = "medication_request" || event_type = "medication_administration"
      || event_type = "medication_dispense" then
    (data.lookupD "medication" (JValue.objV [])).lookupD "display" (JValue.strV "Medication")
  else if event_type = "encounter" then data.lookupD "class" (JValue.strV "Encounter")
  else if event_type = "procedure" then data.lookupD "code" (JValue.strV "Procedure")
  else JValue.strV event_type

/-- `_add_to_timeline`: best-effort date extraction, then a timeline append.
(The final fallback of `_get_event_description` title-cases the event type;
all callers pass lower-case snake names that hit an explicit branch, so the
plain event type stands in for `title()`.) -/
def add_to_timeline (event_type : String) (data : JValue) (st : MimicPatient) : MimicPatient :=
  let date_fields := ["effective_date", "effectiveDateTime", "authored_on", "recorded_date",
    "onset_date", "performed_date", "start", "collection_date"]
  let rec firstDate : List String → Option JValue
    | [] => none
    | f :: rest =>
      match data.lookup f with
      | some v => if v.truthy then some v else firstDate rest
      | none => firstDate rest
  let date0 := firstDate date_fields
  let date :=
    match date0 with
    | some d => some d
    | none =>
      match data.lookup "period" with
      | some period =>
        match period.lookup "start" with
        | some s => some s
        | none => none
      | none => none
  match date with
  | some d =>
    if d.truthy then
      let entry := JValue.objV
        [("date", d), ("event_type", JValue.strV event_type),
         ("id", data.lookupD "id" JValue.nullV),
         ("description", get_event_description event_type data),
         ("raw_data", data)]
      { st with clinical_data :=
          { st.clinical_data with timeline := st.clinical_data.timeline ++ [entry] } }
    else st
  | none => st

end MimicPatient

namespace MimicPatient

/-- `parse_patient_resource`. -/
def parse_patient_resource (resource : JValue) (st : MimicPatient) : MimicPatient :=
  if !resource.truthy || !((resource.lookup "resourceType").isSome
      && (resource.lookupD "resourceType" JValue.nullV).asStrD = "Patient"
      && (resource.lookupD "resourceType" JValue.nullV).isStr) then st
  else
    let st := { st with raw_resources := objSet st.raw_resources "patient" resource }
    let demo0 := { st.demographics with
      patient_id := resource.lookupD "id" (JValue.strV ""),
      gender := resource.lookupD "gender" (JValue.strV ""),
      birth_date := resource.lookupD "birthDate" (JValue.strV ""),
      deceased_date := resource.lookupD "deceasedDateTime" JValue.nullV }
    let demo0 := { demo0 with is_deceased := demo0.deceased_date.truthy }
    -- MIMIC identifier loop (last match wins); absent key means no iterations
    let demo1 :=
      ((resource.lookupD "identifier" (JValue.arrV [])).asListD).foldl
        (fun demo identifier =>
          if pyInStr "mimic" (pyLower ((identifier.lookupD "system" (JValue.strV "")).asStrD)) then
            { demo with mimic_id := identifier.lookupD "value" (JValue.strV "") }
          else demo)
        demo0
    -- name: first entry's family, when present
    let demo2 :=
      match resource.lookup "name" with
      | some names =>
        if names.truthy then
          match names.asListD with
          | name_obj :: _ =>
            if (name_obj.lookup "family").isSome then
              { demo1 with name := name_obj.lookupD "family" JValue.nullV }
            else demo1
          | [] => demo1
        else demo1
      | none => demo1
    -- marital status: first coding's code
    let demo3 :=
      match resource.lookup "maritalStatus" with
      | some ms =>
        match (ms.lookupD "coding" (JValue.arrV [])).asListD with
        | coding :: _ => { demo2 with marital_status := coding.lookupD "code" (JValue.strV "") }
        | [] => demo2
      | none => demo2
    -- extensions: race / ethnicity / birth sex (last "text" sub-extension wins)
    let demo4 :=
      match resource.lookup "extension" with
      | some exts =>
        (exts.asListD).foldl (fun demo ext =>
          let url := (ext.lookupD "url" (JValue.strV "")).asStrD
          if pyInStr "us-core-race" url then
            ((ext.lookupD "extension" (JValue.arrV [])).asListD).foldl (fun demo race =>
              if (race.lookupD "url" JValue.nullV).asStrD = "text"
                  && (race.lookupD "url" JValue.nullV).isStr then
                { demo with race := race.lookupD "valueString" (JValue.strV "") }
              else demo) demo
          else if pyInStr "us-core-ethnicity" url then
            ((ext.lookupD "extension" (JValue.arrV [])).asListD).foldl (fun demo eth =>
              if (eth.lookupD "url" JValue.nullV).asStrD = "text"
                  && (eth.lookupD "url" JValue.nullV).isStr then
                { demo with ethnicity := eth.lookupD "valueString" (JValue.strV "") }
              else demo) demo
          else if pyInStr "us-core-birthsex" url then
            { demo with birth_sex := ext.lookupD "valueCode" (JValue.strV "") }
          else demo) demo3
      | none => demo3
    { st with demographics := demo4 }

/-- `parse_observation_resource`. The `meta.profile[0]` microbiology probe
indexes the default `[""]` when `profile` is absent; an explicitly empty
`profile` list would raise `IndexError` in Python and is modelled as the
empty string here (no real MIMIC payload carries an empty profile list). -/
def parse_observation_resource (resource : JValue) (st : MimicPatient) : MimicPatient :=
  if !resource.truthy || !((resource.lookup "resourceType").isSome
      && (resource.lookupD "resourceType" JValue.nullV).asStrD = "Observation"
      && (resource.lookupD "resourceType" JValue.nullV).isStr) then st
  else
    let observation := extract_observation_data resource
    let st := { st with clinical_data :=
      { st.clinical_data with observations := st.clinical_data.observations ++ [observation] } }
    let category := get_observation_category resource
    let st :=
      if category = "vital-signs" then
        { st with clinical_data :=
          { st.clinical_data with vital_signs := st.clinical_data.vital_signs ++ [observation] } }
      else if category = "laboratory" then
        { st with clinical_data :=
          { st.clinical_data with lab_results := st.clinical_data.lab_results ++ [observation] } }
      else
        let profile0 :=
          match ((resource.lookupD "meta" (JValue.objV [])).lookupD "profile"
              (JValue.arrV [JValue.strV ""])).asListD with
          | p :: _ => p.asStrD
          | [] => ""
        if pyInStr "micro" profile0 then
          { st with clinical_data :=
            { st.clinical_data with
              microbiology := st.clinical_data.microbiology ++ [observation] } }
        else st
    add_to_timeline "observation" observation st

/-- `parse_condition_resource`. -/
def parse_condition_resource (resource : JValue) (st : MimicPatient) : MimicPatient :=
  if !resource.truthy || !((resource.lookup "resourceType").isSome
      && (resource.lookupD "resourceType" JValue.nullV).asStrD = "Condition"
      && (resource.lookupD "resourceType" JValue.nullV).isStr) then st
  else
    let condition := JValue.objV
      [("id", resource.lookupD "id" JValue.nullV),
       ("code", extract_code_display (resource.lookupD "code" (JValue.objV []))),
       ("clinical_status", extract_coding_display (resource.lookupD "clinicalStatus" (JValue.objV []))),
       ("verification_status", extract_coding_display
          (resource.lookupD "verificationStatus" (JValue.objV []))),
       ("category", JValue.arrV (((resource.lookupD "category" (JValue.arrV [])).asListD).map
          extract_coding_display)),
       ("onset_date", resource.lookupD "onsetDateTime" JValue.nullV),
       ("recorded_date", resource.lookupD "recordedDate" JValue.nullV),
       ("severity", extract_coding_display (resource.lookupD "severity" (JValue.objV []))),
       ("raw_resource", resource)]
    let st := { st with clinical_data :=
      { st.clinical_data with conditions := st.clinical_data.conditions ++ [condition] } }
    add_to_timeline "condition" condition st

/-- `_extract_medication_info`. -/
def extract_medication_info (resource : JValue) (st : MimicPatient) : JValue :=
  if (resource.lookup "medicationCodeableConcept").isSome then
    JValue.objV
      [("display", extract_code_display (resource.lookupD "medicationCodeableConcept" JValue.nullV)),
       ("coding", resource.lookupD "medicationCodeableConcept" JValue.nullV)]
  else if (resource.lookup "medicationReference").isSome then
    let reference := (resource.lookupD "medicationReference" (JValue.objV [])).lookupD
      "reference" JValue.nullV
    let base : List (String × JValue) := [("reference", reference)]
    if reference.truthy then
      let med_id := pyReplace (reference.asStrD) "Medication/" ""
      match (st.raw_resources.find? (fun p => p.1 = "medication_" ++ med_id)).map Prod.snd with
      | some med_resource =>
        JValue.objV (objSet base "display"
          (extract_code_display (med_resource.lookupD "code" (JValue.objV []))))
      | none => JValue.objV base
    else JValue.objV base
  else JValue.objV []

/-- `_extract_timing`. -/
def extract_timing (timing : JValue) : JValue :=
  let t0 : List (String × JValue) :=
    if (timing.lookup "code").isSome then
      [("code", extract_code_display (timing.lookupD "code" JValue.nullV))]
    else []
  match timing.lookup "repeat" with
  | some rep =>
    let freq := rep.lookupD "frequency" JValue.nullV
    let period := rep.lookupD "period" JValue.nullV
    let period_unit := rep.lookupD "periodUnit" JValue.nullV
    let t1 := objSet (objSet (objSet t0 "frequency" freq) "period" period) "period_unit" period_unit
    if freq.truthy && period.truthy && period_unit.truthy then
      JValue.objV (objSet t1 "description"
        (JValue.strV ((freq.asStrD) ++ " time(s) per " ++ (period.asStrD) ++ " "
          ++ (period_unit.asStrD))))
    else JValue.objV t1
  | none => JValue.objV t0

/-- `_extract_dosage_instructions`. -/
def extract_dosage_instructions (dosage_list : List JValue) : List JValue :=
  dosage_list.map (fun dosage =>
    let dose_and_rate := ((dosage.lookupD "doseAndRate" (JValue.arrV [])).asListD).map
      (fun dose_rate =>
        let d0 : List (String × JValue) :=
          if (dose_rate.lookup "doseQuantity").isSome then
            [("dose", dose_rate.lookupD "doseQuantity" JValue.nullV)]
          else []
        let d1 :=
          if (dose_rate.lookup "rateQuantity").isSome then
            objSet d0 "rate" (dose_rate.lookupD "rateQuantity" JValue.nullV)
          else d0
        JValue.objV d1)
    JValue.objV
      [("text", dosage.lookupD "text" JValue.nullV),
       ("route", extract_coding_display (dosage.lookupD "route" (JValue.objV []))),
       ("timing", extract_timing (dosage.lookupD "timing" (JValue.objV []))),
       ("dose_and_rate", JValue.arrV dose_and_rate)])

/-- `_extract_administration_dosage`. -/
def extract_administration_dosage (dosage : JValue) : JValue :=
  JValue.objV
    [("text", dosage.lookupD "text" JValue.nullV),
     ("route", extract_coding_display (dosage.lookupD "route" (JValue.objV []))),
     ("method", extract_coding_display (dosage.lookupD "method" (JValue.objV []))),
     ("dose", dosage.lookupD "dose" (JValue.objV []))]

end MimicPatient

namespace MimicPatient

/-- `_parse_medication_request`. -/
def parse_medication_request (resource : JValue) (st : MimicPatient) : MimicPatient :=
  let med_request := JValue.objV
    [("id", resource.lookupD "id" JValue.nullV),
     ("status", resource.lookupD "status" JValue.nullV),
     ("intent", resource.lookupD "intent" JValue.nullV),
     ("medication", extract_medication_info resource st),
     ("authored_on", resource.lookupD "authoredOn" JValue.nullV),
     ("dosage_instructions", JValue.arrV (extract_dosage_instructions
        ((resource.lookupD "dosageInstruction" (JValue.arrV [])).asListD))),
     ("dispense_request", resource.lookupD "dispenseRequest" (JValue.objV [])),
     ("type", JValue.strV "request"),
     ("raw_resource", resource)]
  let st := { st with clinical_data :=
    { st.clinical_data with
      medication_requests := st.clinical_data.medication_requests ++ [med_request],
      medications := st.clinical_data.medications ++ [med_request] } }
  add_to_timeline "medication_request" med_request st

/-- `_parse_medication_administration`. -/
def parse_medication_administration (resource : JValue) (st : MimicPatient) : MimicPatient :=
  let med_admin := JValue.objV
    [("id", resource.lookupD "id" JValue.nullV),
     ("status", resource.lookupD "status" JValue.nullV),
     ("medication", extract_medication_info resource st),
     ("effective_date", resource.lookupD "effectiveDateTime" JValue.nullV),
     ("dosage", extract_administration_dosage (resource.lookupD "dosage" (JValue.objV []))),
     ("type", JValue.strV "administration"),
     ("raw_resource", resource)]
  let st := { st with clinical_data :=
    { st.clinical_data with
      medication_administrations := st.clinical_data.medication_administrations ++ [med_admin],
      medications := st.clinical_data.medications ++ [med_admin] } }
  add_to_timeline "medication_administration" med_admin st

/-- `_parse_medication_dispense`. -/
def parse_medication_dispense (resource : JValue) (st : MimicPatient) : MimicPatient :=
  let med_dispense := JValue.objV
    [("id", resource.lookupD "id" JValue.nullV),
     ("status", resource.lookupD "status" JValue.nullV),
     ("medication", extract_medication_info resource st),
     ("when_dispensed", resource.lookupD "whenHandedOver" JValue.nullV),
     ("quantity", resource.lookupD "quantity" (JValue.objV [])),
     ("dosage_instructions", JValue.arrV (extract_dosage_instructions
        ((resource.lookupD "dosageInstruction" (JValue.arrV [])).asListD))),
     ("type", JValue.strV "dispense"),
     ("raw_resource", resource)]
  let st := { st with clinical_data :=
    { st.clinical_data with medications := st.clinical_data.medications ++ [med_dispense] } }
  add_to_timeline "medication_dispense" med_dispense st

/-- `_parse_medication_definition`. -/
def parse_medication_definition (resource : JValue) (st : MimicPatient) : MimicPatient :=
  match resource.lookup "id" with
  | some med_id =>
    if med_id.truthy then
      { st with raw_resources :=
          objSet st.raw_resources ("medication_" ++ med_id.asStrD) resource }
    else st
  | none => st

/-- `parse_medication_resource`: dispatch on the medication kind. -/
def parse_medication_resource (resource : JValue) (st : MimicPatient) : MimicPatient :=
  match resource.lookup "resourceType" with
  | some (JValue.strV "MedicationRequest") => parse_medication_request resource st
  | some (JValue.strV "MedicationAdministration") => parse_medication_administration resource st
  | some (JValue.strV "MedicationDispense") => parse_medication_dispense resource st
  | some (JValue.strV "Medication") => parse_medication_definition resource st
  | _ => st

/-- `_calculate_length_of_stay` (day resolution; `datetime.now()` is the
`now` parameter). -/
def calculate_length_of_stay (now : Date) (period : JValue) : Option Int :=
  if !period.truthy || !(period.lookup "start").isSome then none
  else
    match toDatetime (period.lookupD "start" JValue.nullV) with
    | none => none
    | some start =>
      let endDate :=
        match period.lookup "end" with
        | some e => toDatetime e
        | none => some now
      match endDate with
      | none => none
      | some e => some (daysFromCivil e - daysFromCivil start)

/-- `_extract_encounter_locations`. -/
def extract_encounter_locations (locations : List JValue) : List JValue :=
  locations.map (fun loc => JValue.objV
    [("location_reference", (loc.lookupD "location" (JValue.objV [])).lookupD
        "reference" JValue.nullV),
     ("period", loc.lookupD "period" (JValue.objV [])),
     ("status", loc.lookupD "status" JValue.nullV)])

/-- `parse_encounter_resource`. -/
def parse_encounter_resource (now : Date) (resource : JValue) (st : MimicPatient) :
    MimicPatient :=
  if !resource.truthy || !((resource.lookup "resourceType").isSome
      && (resource.lookupD "resourceType" JValue.nullV).asStrD = "Encounter"
      && (resource.lookupD "resourceType" JValue.nullV).isStr) then st
  else
    let los := calculate_length_of_stay now (resource.lookupD "period" (JValue.objV []))
    let encounter := JValue.objV
      [("id", resource.lookupD "id" JValue.nullV),
       ("status", resource.lookupD "status" JValue.nullV),
       ("class", extract_coding_display (resource.lookupD "class" (JValue.objV []))),
       ("type", JValue.arrV (((resource.lookupD "type" (JValue.arrV [])).asListD).map
          extract_coding_display)),
       ("service_type", extract_coding_display (resource.lookupD "serviceType" (JValue.objV []))),
       ("priority", extract_coding_display (resource.lookupD "priority" (JValue.objV []))),
       ("period", resource.lookupD "period" (JValue.objV [])),
       ("length_of_stay", match los with | some n => JValue.intV n | none => JValue.nullV),
       ("reason_codes", JValue.arrV (((resource.lookupD "reasonCode" (JValue.arrV [])).asListD).map
          extract_code_display)),
       ("hospitalization", resource.lookupD "hospitalization" (JValue.objV [])),
       ("locations", JValue.arrV (extract_encounter_locations
          ((resource.lookupD "location" (JValue.arrV [])).asListD))),
       ("raw_resource", resource)]
    let st := { st with clinical_data :=
      { st.clinical_data with encounters := st.clinical_data.encounters ++ [encounter] } }
    add_to_timeline "encounter" encounter st

/-- `parse_procedure_resource`. -/
def parse_procedure_resource (resource : JValue) (st : MimicPatient) : MimicPatient :=
  if !resource.truthy || !((resource.lookup "resourceType").isSome
      && (resource.lookupD "resourceType" JValue.nullV).asStrD = "Procedure"
      && (resource.lookupD "resourceType" JValue.nullV).isStr) then st
  else
    let procedure := JValue.objV
      [("id", resource.lookupD "id" JValue.nullV),
       ("status", resource.lookupD "status" JValue.nullV),
       ("category", extract_coding_display (resource.lookupD "category" (JValue.objV []))),
       ("code", extract_code_display (resource.lookupD "code" (JValue.objV []))),
       ("performed_date", resource.lookupD "performedDateTime" JValue.nullV),
       ("performed_period", resource.lookupD "performedPeriod" (JValue.objV [])),
       ("raw_resource", resource)]
    let st := { st with clinical_data :=
      { st.clinical_data with procedures := st.clinical_data.procedures ++ [procedure] } }
    add_to_timeline "procedure" procedure st

/-- `parse_location_resource`. -/
def parse_location_resource (resource : JValue) (st : MimicPatient) : MimicPatient :=
  if !resource.truthy || !((resource.lookup "resourceType").isSome
      && (resource.lookupD "resourceType" JValue.nullV).asStrD = "Location"
      && (resource.lookupD "resourceType" JValue.nullV).isStr) then st
  else
    let location := JValue.objV
      [("id", resource.lookupD "id" JValue.nullV),
       ("status", resource.lookupD "status" JValue.nullV),
       ("name", resource.lookupD "name" JValue.nullV),
       ("physical_type", extract_coding_display (resource.lookupD "physicalType" (JValue.objV []))),
       ("raw_resource", resource)]
    { st with clinical_data :=
      { st.clinical_data with locations := st.clinical_data.locations ++ [location] } }

/-- `parse_specimen_resource`. -/
def parse_specimen_resource (resource : JValue) (st : MimicPatient) : MimicPatient :=
  if !resource.truthy || !((resource.lookup "resourceType").isSome
      && (resource.lookupD "resourceType" JValue.nullV).asStrD = "Specimen"
      && (resource.lookupD "resourceType" JValue.nullV).isStr) then st
  else
    let specimen := JValue.objV
      [("id", resource.lookupD "id" JValue.nullV),
       ("type", extract_coding_display (resource.lookupD "type" (JValue.objV []))),
       ("collection_date", (resource.lookupD "collection" (JValue.objV [])).lookupD
          "collectedDateTime" JValue.nullV),
       ("raw_resource", resource)]
    { st with clinical_data :=
      { st.clinical_data with specimens := st.clinical_data.specimens ++ [specimen] } }

/-- The keys of the `parsers` dispatch table in `parse_resource`. -/
def recognizedResourceTypes : List String :=
  ["Patient", "Observation", "Condition", "MedicationRequest", "MedicationAdministration",
   "MedicationDispense", "Medication", "Encounter", "Procedure", "Location", "Specimen"]

/-- `parse_resource`: dispatch on the `resourceType` discriminant; unknown
types fall through to the logged no-op default. -/
def parse_resource (now : Date) (resource : JValue) (st : MimicPatient) : MimicPatient :=
  match resource.lookup "resourceType" with
  | some (JValue.strV t) =>
    if t = "Patient" then parse_patient_resource resource st
    else if t = "Observation" then parse_observation_resource resource st
    else if t = "Condition" then parse_condition_resource resource st
    else if t = "MedicationRequest" then parse_medication_resource resource st
    else if t = "MedicationAdministration" then parse_medication_resource resource st
    else if t = "MedicationDispense" then parse_medication_resource resource st
    else if t = "Medication" then parse_medication_resource resource st
    else if t = "Encounter" then parse_encounter_resource now resource st
    else if t = "Procedure" then parse_procedure_resource resource st
    else if t = "Location" then parse_location_resource resource st
    else if t = "Specimen" then parse_specimen_resource resource st
    else st
  | _ => st

/-- `parse_fhir_bundle`. -/
def parse_fhir_bundle (now : Date) (bundle : JValue) (st : MimicPatient) : MimicPatient :=
  if !bundle.truthy || !((bundle.lookup "resourceType").isSome
      && (bundle.lookupD "resourceType" JValue.nullV).asStrD = "Bundle"
      && (bundle.lookupD "resourceType" JValue.nullV).isStr) then st
  else
    ((bundle.lookupD "entry" (JValue.arrV [])).asListD).foldl
      (fun st entry =>
        match entry.lookup "resource" with
        | some resource => parse_resource now resource st
        | none => st)
      st

/-- `parse_resource_list`. -/
def parse_resource_list (now : Date) (resources : List JValue) (st : MimicPatient) :
    MimicPatient :=
  resources.foldl (fun st r => parse_resource now r st) st

end MimicPatient

/-! Structural equality test on JSON-like values (the model of Python
`==` on parsed JSON data, used by `set()` deduplication below). -/

mutual

def JValue.beq : JValue → JValue → Bool
  | .nullV, .nullV => true
  | .boolV a, .boolV b => a == b
  | .intV a, .intV b => a == b
  | .strV a, .strV b => a == b
  | .arrV xs, .arrV ys => JValue.beqList xs ys
  | .objV xs, .objV ys => JValue.beqObj xs ys
  | _, _ => false

def JValue.beqList : List JValue → List JValue → Bool
  | [], [] => true
  | x :: xs, y :: ys => JValue.beq x y && JValue.beqList xs ys
  | _, _ => false

def JValue.beqObj : List (String × JValue) → List (String × JValue) → Bool
  | [], [] => true
  | (k1, v1) :: xs, (k2, v2) :: ys => k1 == k2 && JValue.beq v1 v2 && JValue.beqObj xs ys
  | _, _ => false

end

/-- `list(set(xs))` modelled as first-occurrence deduplication (CPython set
iteration order is unspecified; only membership and cardinality of the
result are relied on by the source). -/
def pyDedup (xs : List JValue) : List JValue :=
  xs.foldl (fun acc x => if acc.any (fun y => JValue.beq y x) then acc else acc ++ [x]) []

namespace MimicPatient

/-- `_calculate_age`: `(end - birth).days // 365`, clamped non-negative;
any parse failure inside the `try` gives `None`. -/
def calculate_age (today : Date) (st : MimicPatient) : Option Int :=
  if !st.demographics.birth_date.truthy then none
  else
    match toDatetime st.demographics.birth_date with
    | none => none
    | some birth_date =>
      let endDate :=
        if st.demographics.deceased_date.truthy then toDatetime st.demographics.deceased_date
        else some today
      match endDate with
      | none => none
      | some e => some (max 0 ((daysFromCivil e - daysFromCivil birth_date).fdiv 365))

/-- `_get_data_date_range`: earliest/latest parseable timeline date. -/
def get_data_date_range (st : MimicPatient) : JValue :=
  let all_dates := st.clinical_data.timeline.filterMap
    (fun item =>
      match item.lookup "date" with
      | some d => if d.truthy then toDatetime d else none
      | none => none)
  match all_dates with
  | [] => JValue.objV [("start", JValue.nullV), ("end", JValue.nullV)]
  | d0 :: rest =>
    let minD := rest.foldl (fun a b => if daysFromCivil b < daysFromCivil a then b else a) d0
    let maxD := rest.foldl (fun a b => if daysFromCivil a < daysFromCivil b then b else a) d0
    JValue.objV [("start", JValue.strV (dateToIso minD)), ("end", JValue.strV (dateToIso maxD))]

/-- `_get_key_conditions`: up to five distinct condition codes. -/
def get_key_conditions (st : MimicPatient) : List JValue :=
  if st.clinical_data.conditions.isEmpty then []
  else
    let conditions := (st.clinical_data.conditions.filter
        (fun c => (c.lookupD "code" JValue.nullV).truthy)).map
      (fun c => c.lookupD "code" JValue.nullV)
    (pyDedup conditions).take 5

/-- `_get_recent_vitals`: the five most recent dated vital signs with a
numeric value, keyed by display code. Unparseable effective dates would
raise inside `sorted` in Python; they sort as the epoch here. -/
def get_recent_vitals (st : MimicPatient) : JValue :=
  if st.clinical_data.vital_signs.isEmpty then JValue.objV []
  else
    let vitals_with_dates := st.clinical_data.vital_signs.filter
      (fun v => (v.lookupD "effective_date" JValue.nullV).truthy)
    if vitals_with_dates.isEmpty then JValue.objV []
    else
      let key : JValue → Int := fun v =>
        daysFromCivil ((toDatetime (v.lookupD "effective_date" JValue.nullV)).getD
          ⟨1970, 1, 1⟩)
      let recent_vitals := (vitals_with_dates.mergeSort (fun a b => key b ≤ key a)).take 5
      JValue.objV (recent_vitals.foldl (fun result vital =>
        let code := (vital.lookupD "code_display" (JValue.strV "Unknown")).asStrD
        if (vital.lookupD "value_numeric" JValue.nullV).truthy then
          objSet result code (JValue.objV
            [("value", vital.lookupD "value_numeric" JValue.nullV),
             ("unit", vital.lookupD "unit" (JValue.strV "")),
             ("date", vital.lookupD "effective_date" JValue.nullV)])
        else result) [])

/-- `_get_medication_summary`. -/
def get_medication_summary (st : MimicPatient) : JValue :=
  if st.clinical_data.medications.isEmpty then JValue.objV []
  else
    let displays := (st.clinical_data.medications.filter (fun m =>
        (((m.lookupD "medication" (JValue.objV [])).lookupD "display"
          (JValue.strV "")).truthy))).map
      (fun m => (m.lookupD "medication" (JValue.objV [])).lookupD "display" (JValue.strV ""))
    JValue.objV
      [("total_medications", JValue.intV st.clinical_data.medications.length),
       ("requests", JValue.intV st.clinical_data.medication_requests.length),
       ("administrations", JValue.intV st.clinical_data.medication_administrations.length),
       ("unique_medications", JValue.intV (pyDedup displays).length)]

/-- `get_summary_statistics`: serves the memoised summary when the
`summary` cache entry exists, otherwise computes it, caches it and
returns it. Nothing in the class ever invalidates this cache entry. -/
def get_summary_statistics (today : Date) (st : MimicPatient) : JValue × MimicPatient :=
  match (st.analysis_cache.find? (fun p => p.1 = "summary")).map Prod.snd with
  | some s => (s, st)
  | none =>
    let summary := JValue.objV
      [("patient_info", JValue.objV
          [("id", st.demographics.patient_id),
           ("mimic_id", st.demographics.mimic_id),
           ("name", st.demographics.name),
           ("age", match calculate_age today st with
                   | some n => JValue.intV n
                   | none => JValue.nullV),
           ("gender", st.demographics.gender),
           ("is_deceased", JValue.boolV st.demographics.is_deceased)]),
       ("data_counts", JValue.objV
          [("observations", JValue.intV st.clinical_data.observations.length),
           ("vital_signs", JValue.intV st.clinical_data.vital_signs.length),
           ("lab_results", JValue.intV st.clinical_data.lab_results.length),
           ("conditions", JValue.intV st.clinical_data.conditions.length),
           ("medications", JValue.intV st.clinical_data.medications.length),
           ("encounters", JValue.intV st.clinical_data.encounters.length),
           ("procedures", JValue.intV st.clinical_data.procedures.length)]),
       ("date_range", get_data_date_range st),
       ("key_conditions", JValue.arrV (get_key_conditions st)),
       ("recent_vitals", get_recent_vitals st),
       ("medication_summary", get_medication_summary st)]
    (summary, { st with analysis_cache := objSet st.analysis_cache "summary" summary })

/-- `to_dict`: the flat mapping pushed to the client. The embedded
`clinical_summary` goes through the summary cache; the top-level
`data_counts` are recomputed from the live sequences on every call. -/
def to_dict (today : Date) (st : MimicPatient) : JValue × MimicPatient :=
  let (summary, st1) := get_summary_statistics today st
  (JValue.objV
    [("demographics", JValue.objV
        [("patient_id", st.demographics.patient_id),
         ("mimic_id", st.demographics.mimic_id),
         ("name", st.demographics.name),
         ("gender", st.demographics.gender),
         ("birth_date", st.demographics.birth_date),
         ("deceased_date", st.demographics.deceased_date),
         ("race", st.demographics.race),
         ("ethnicity", st.demographics.ethnicity),
         ("marital_status", st.demographics.marital_status),
         ("is_deceased", JValue.boolV st.demographics.is_deceased),
         ("age", match calculate_age today st with
                 | some n => JValue.intV n
                 | none => JValue.nullV)]),
     ("encounters", JValue.arrV st.clinical_data.encounters),
     ("medications", JValue.arrV st.clinical_data.medications),
     ("lab_results", JValue.arrV st.clinical_data.lab_results),
     ("observations", JValue.arrV st.clinical_data.observations),
     ("conditions", JValue.arrV st.clinical_data.conditions),
     ("clinical_summary", summary),
     ("data_counts", JValue.objV
        [("observations", JValue.intV st.clinical_data.observations.length),
         ("vital_signs", JValue.intV st.clinical_data.vital_signs.length),
         ("lab_results", JValue.intV st.clinical_data.lab_results.length),
         ("conditions", JValue.intV st.clinical_data.conditions.length),
         ("medications", JValue.intV st.clinical_data.medications.length),
         ("encounters", JValue.intV st.clinical_data.encounters.length),
         ("procedures", JValue.intV st.clinical_data.procedures.length)]),
     ("follow_up_appointments", JValue.arrV st.follow_up_appointments)], st1)

/-- `get_voice_summary` (returns the summary text; fills the summary
cache as a side effect of calling `get_summary_statistics`). -/
def get_voice_summary (today : Date) (st : MimicPatient) : String × MimicPatient :=
  let (_, st1) := get_summary_statistics today st
  let age := calculate_age today st
  let age_str :=
    match age with
    | some n => if n ≠ 0 then toString n ++ " year old" else ""
    | none => ""
  let text :=
    "Patient " ++ st.demographics.name.asStrD ++ ", MIMIC ID "
      ++ st.demographics.mimic_id.asStrD ++ ", is a " ++ age_str ++ " "
      ++ st.demographics.gender.asStrD ++ " patient. We have "
      ++ toString st.clinical_data.vital_signs.length ++ " vital sign measurements, "
      ++ toString st.clinical_data.lab_results.length ++ " lab results, "
      ++ toString st.clinical_data.conditions.length ++ " medical conditions, and "
      ++ toString st.clinical_data.medications.length ++ " medication records."
  (text, st1)

/-- `schedule_follow_up`. -/
def schedule_follow_up (scheduled_time : String) (reason : String) (st : MimicPatient) :
    MimicPatient :=
  let appointment := JValue.objV
    [("scheduled_time", JValue.strV scheduled_time), ("reason", JValue.strV reason)]
  { st with follow_up_appointments := st.follow_up_appointments ++ [appointment] }

end MimicPatient

/-! ## Event vocabulary (s2s_events.py): the builders used by the
tool-exchange path of the Session Orchestrator. -/

namespace S2sEvent

/-- `S2sEvent.content_start_tool`. -/
def content_start_tool (prompt_name : JValue) (content_name : String) (tool_use_id : JValue) :
    JValue :=
  JValue.objV [("event", JValue.objV [("contentStart", JValue.objV
    [("promptName", prompt_name),
     ("contentName", JValue.strV content_name),
     ("interactive", JValue.boolV false),
     ("type", JValue.strV "TOOL"),
     ("role", JValue.strV "TOOL"),
     ("toolResultInputConfiguration", JValue.objV
        [("toolUseId", tool_use_id),
         ("type", JValue.strV "TEXT"),
         ("textInputConfiguration", JValue.objV [("mediaType", JValue.strV "text/plain")])])])])]

/-- `S2sEvent.text_input_tool`. -/
def text_input_tool (prompt_name : JValue) (content_name : String) (content : JValue) : JValue :=
  JValue.objV [("event", JValue.objV [("toolResult", JValue.objV
    [("promptName", prompt_name),
     ("contentName", JValue.strV content_name),
     ("content", content)])])]

/-- `S2sEvent.content_end`. -/
def content_end (prompt_name : JValue) (content_name : String) : JValue :=
  JValue.objV [("event", JValue.objV [("contentEnd", JValue.objV
    [("promptName", prompt_name),
     ("contentName", JValue.strV content_name)])])]

end S2sEvent

/-! ## Session Orchestrator (s2s_session_manager.py) -/

/-- `camel_to_snake`: insert `_` before every non-initial upper-case
letter, then lower-case everything. -/
def camel_to_snake (name : String) : String :=
  let step := fun (acc : String × Bool) (c : Char) =>
    let (out, atStart) := acc
    if c.isUpper && !atStart then (out.push '_' |>.push c.toLower, false)
    else ((out.push c.toLower), false)
  ((name.toList.foldl step ("", true))).1

/-- `FHIR_TOOL_NAMES`. -/
def FHIR_TOOL_NAMES : List String :=
  ["search_by_type", "search_by_id", "search_by_text",
   "find_patient", "get_patient_observations", "get_patient_conditions",
   "get_patient_medications", "get_patient_encounters", "get_patient_allergies",
   "get_patient_procedures", "get_patient_careteam", "get_patient_careplans",
   "get_vital_signs", "get_lab_results", "get_medications_history",
   "clinical_query", "get_resource_by_type_and_id", "get_all_resources",
   "get_resource_types", "get_patient_data"]

/-- Oracle environment of one `S2sSessionManager` step: the Python
standard library and backend collaborators it touches. -/
structure SessionEnv where
  /-- `json.loads` (errors model `json.JSONDecodeError` / `TypeError`). -/
  jsonLoads : String → Except String JValue
  /-- `json.dumps`. -/
  jsonDumps : JValue → String
  /-- the `str(uuid.uuid4())` drawn in the current step. -/
  newUuid : String
  /-- `int(time.time() * 1000)` during the current step. -/
  nowMs : Int
  /-- `datetime.now(timezone.utc).strftime(...)` for `getdatetool`. -/
  nowUtcString : String
  /-- `pandas.to_datetime("today")` / `datetime.now()`, day resolution. -/
  today : Date
  /-- `self.mcp_loc_client.call_tool` when a client is configured
  (`none` models `mcp_loc_client is None`); an `error` models the await
  raising. -/
  clientCallTool : Option (JValue → Except String JValue)

/-- The apology result returned by the `processToolUse` exception
boundary. -/
def apologyResult : JValue :=
  JValue.objV [("result", JValue.strV
    "An error occurred while attempting to retrieve information related to the toolUse event.")]

/-- Python `k in v` for the loose values the orchestrator handles: key
membership on dicts, element membership on lists, substring test on
strings, `TypeError` on non-iterables. -/
def pyContains (v : JValue) (k : String) : Except String Bool :=
  match v with
  | JValue.objV fields => .ok (fields.any (fun p => p.1 = k))
  | JValue.arrV xs => .ok (xs.any (fun x => JValue.beq x (JValue.strV k)))
  | JValue.strV s => .ok (pyInStr k s)
  | _ => .error "TypeError: argument is not iterable"

/-- Python `v[k]` subscription by a string key: only dicts accept it. -/
def pySubscript (v : JValue) (k : String) : Except String JValue :=
  match v with
  | JValue.objV _ =>
    match v.lookup k with
    | some x => .ok x
    | none => .error "KeyError"
  | _ => .error "TypeError: indices must be integers"

/-- One resource of a `result` list routed into the Patient State
Aggregator by `processToolUse` (s2s_session_manager.py lines 376-388).
The `MedicationRequest` arm calls `self.patient.parse_medication_request`,
a method that does not exist on `MimicPatient` (the class only defines
`_parse_medication_request`), so that arm raises `AttributeError`. -/
def routeResultResource (now : Date) (resource : JValue) (pt : MimicPatient) :
    Except String MimicPatient :=
  match resource with
  | JValue.objV _ =>
    match resource.lookup "resourceType" with
    | some (JValue.strV "Patient") => .ok (MimicPatient.parse_patient_resource resource pt)
    | some (JValue.strV "Observation") => .ok (MimicPatient.parse_observation_resource resource pt)
    | some (JValue.strV "Condition") => .ok (MimicPatient.parse_condition_resource resource pt)
    | some (JValue.strV "MedicationRequest") =>
      .error "AttributeError: MimicPatient object has no attribute parse_medication_request"
    | some (JValue.strV "Encounter") => .ok (MimicPatient.parse_encounter_resource now resource pt)
    | _ => .ok pt
  | _ => .error "AttributeError: resource.get on a non-dict"

/-- A direct (non-list) result routed into the aggregator
(s2s_session_manager.py lines 390-405); the `MedicationRequest` arm has
the same nonexistent-method `AttributeError` as `routeResultResource`. -/
def routeDirectResult (now : Date) (result_dict : JValue) (pt : MimicPatient) :
    Except String MimicPatient := do
  let rt ← pySubscript result_dict "resourceType"
  let hasEntry ← pyContains result_dict "entry"
  if isStrEq rt "Bundle" && hasEntry then
    pure (MimicPatient.parse_fhir_bundle now result_dict pt)
  else
    match rt with
    | JValue.strV "Patient" => pure (MimicPatient.parse_patient_resource result_dict pt)
    | JValue.strV "Observation" => pure (MimicPatient.parse_observation_resource result_dict pt)
    | JValue.strV "Condition" => pure (MimicPatient.parse_condition_resource result_dict pt)
    | JValue.strV "MedicationRequest" =>
      .error "AttributeError: MimicPatient object has no attribute parse_medication_request"
    | JValue.strV "Encounter" => pure (MimicPatient.parse_encounter_resource now result_dict pt)
    | _ => pure pt

/-- The `for resource in result_dict["result"]` loop: mutations made
before a raise persist on the patient object, so the error carries the
state reached at the raise point. -/
def routeResources (now : Date) (rs : List JValue) (pt : MimicPatient) :
    Except (String × MimicPatient) MimicPatient :=
  match rs with
  | [] => .ok pt
  | r :: rest =>
    match routeResultResource now r pt with
    | .ok pt1 => routeResources now rest pt1
    | .error e => .error (e, pt)

/-- The ingest block of `processToolUse` for a truthy FHIR result
(s2s_session_manager.py lines 352-405); errors carry the patient state
reached when the exception was raised. -/
def ingestFhirResult (env : SessionEnv) (toolName : String) (result : JValue)
    (pt : MimicPatient) : Except (String × MimicPatient) MimicPatient :=
  if toolName = "find_patient" && result.isArr && !result.asListD.isEmpty then
    match result.asListD with
    | patient_resource :: _ => .ok (MimicPatient.parse_patient_resource patient_resource pt)
    | [] => .ok pt
  else
    let result_dict :=
      match result with
      | JValue.strV s =>
        match env.jsonLoads s with
        | .ok d => d
        | .error _ => JValue.objV [("result", result)]
      | _ => result
    -- if "result" in result_dict and isinstance(result_dict["result"], list)
    let elifBranch : Except (String × MimicPatient) MimicPatient :=
      -- elif "resourceType" in result_dict
      match pyContains result_dict "resourceType" with
      | .error e => .error (e, pt)
      | .ok hasType =>
        if hasType then
          match routeDirectResult env.today result_dict pt with
          | .ok pt1 => .ok pt1
          | .error e => .error (e, pt)
        else .ok pt
    match pyContains result_dict "result" with
    | .error e => .error (e, pt)
    | .ok hasResult =>
      if hasResult then
        -- the subscript inside `isinstance(result_dict["result"], list)`
        match pySubscript result_dict "result" with
        | .error e => .error (e, pt)
        | .ok (JValue.arrV rs) => routeResources env.today rs pt
        | .ok _ => elifBranch
      else elifBranch

/-- Body of `S2sSessionManager.processToolUse` inside its `try` block
(s2s_session_manager.py lines 328-505); `camel_to_snake` runs before the
`try`. Errors carry the patient state at the raise point. The dashboard,
trend-analysis and patient-comparison branches after the unconditional
`return` of lines 408-423 are unreachable and have no model. -/
def processToolUseBody (env : SessionEnv) (toolName0 : String) (toolUseContent : JValue)
    (patient : MimicPatient) : Except (String × MimicPatient) (JValue × MimicPatient) :=
  let toolName := camel_to_snake toolName0
  -- if toolUseContent.get("content"): query_json = json.loads(...)
  let contentStep : Except String (Option JValue) :=
    match toolUseContent with
    | JValue.objV _ =>
      let c := toolUseContent.lookupD "content" JValue.nullV
      if c.truthy then
        match c with
        | JValue.strV s => (env.jsonLoads s).map some
        | _ => .error "TypeError: the JSON object must be str"
      else .ok none
    | _ => .error "AttributeError: object has no attribute get"
  match contentStep with
  | .error e => .error (e, patient)
  | .ok query_json =>
    -- result = None, then the getdatetool shortcut
    let result0 : JValue :=
      if toolName = "getdatetool" then JValue.strV env.nowUtcString else JValue.nullV
    -- get_patient_data shortcut returns the cached aggregate directly
    if toolName = "get_patient_data" then
      let (patient_data, patient1) := MimicPatient.to_dict env.today patient
      .ok (JValue.objV [("result", patient_data), ("patientData", patient_data)], patient1)
    else
      let fhirStep : Except (String × MimicPatient) (JValue × MimicPatient) :=
        if FHIR_TOOL_NAMES.contains toolName then
          match env.clientCallTool with
          | some call =>
            match query_json with
            | none => .error ("NameError: name query_json is not defined", patient)
            | some qj =>
              match call (JValue.objV [("tool", JValue.strV toolName), ("parameters", qj)]) with
              | .error e => .error (e, patient)
              | .ok result =>
                if result.truthy then
                  match ingestFhirResult env toolName result patient with
                  | .ok pt => .ok (result, pt)
                  | .error e => .error e
                else .ok (result, patient)
          | none => .ok (result0, patient)
        else .ok (result0, patient)
      match fhirStep with
      | .error e => .error e
      | .ok (result, patient) =>
        if FHIR_TOOL_NAMES.contains toolName then
          let (patient_data, patient1) := MimicPatient.to_dict env.today patient
          let emptyResult :=
            match result with
            | JValue.nullV => true
            | JValue.arrV xs => xs.isEmpty
            | _ => false
          if toolName = "find_patient" && emptyResult then
            let demographics := patient_data.lookupD "demographics" JValue.nullV
            let pid := demographics.lookupD "patient_id" JValue.nullV
            if patient_data.truthy && demographics.truthy && pid.truthy then
              let synthetic_result := JValue.arrV [JValue.objV
                [("resourceType", JValue.strV "Patient"),
                 ("id", pid),
                 ("_synthetic", JValue.boolV true)]]
              .ok (JValue.objV [("result", synthetic_result), ("patientData", patient_data)],
                patient1)
            else
              .ok (JValue.objV [("result", result), ("patientData", patient_data)], patient1)
          else
            .ok (JValue.objV [("result", result), ("patientData", patient_data)], patient1)
        else
          .ok (JValue.objV [("result", result)], patient)

/-- `processToolUse`: the body above behind its catch-all `except`, which
converts any exception into the apology-shaped result. Never raises. -/
def processToolUse (env : SessionEnv) (toolName : String) (toolUseContent : JValue)
    (patient : MimicPatient) : JValue × MimicPatient :=
  match processToolUseBody env toolName toolUseContent patient with
  | .ok r => r
  | .error (_, pt) => (apologyResult, pt)

/-- The per-session mutable fields of `S2sSessionManager` touched by the
inbound event-processing loop. -/
structure SessionState where
  is_active : Bool := false
  /-- `self.stream is not None`. -/
  stream_open : Bool := false
  toolUseContent : JValue := JValue.strV ""
  toolUseId : JValue := JValue.strV ""
  toolName : JValue := JValue.strV ""
  patient : MimicPatient := {}

/-- `send_raw_event`: serialize and send unless the stream is closed or
the session inactive. The `self.close()` on a `sessionEnd` payload calls
an async method without awaiting it, so it produces an un-run coroutine
and has no effect on the session state; any send exception is swallowed.
Returns the events actually written to the model stream. -/
def send_raw_event (st : SessionState) (event_data : JValue) : List JValue × SessionState :=
  if !st.stream_open || !st.is_active then ([], st)
  else ([event_data], st)

/-- The heartbeat event assembled by `send_heartbeat`. -/
def heartbeat_event (env : SessionEnv) : JValue :=
  JValue.objV [("event", JValue.objV [("heartbeat", JValue.objV
    [("id", JValue.strV env.newUuid),
     ("timestamp", JValue.intV env.nowMs)])])]

/-- `send_heartbeat`: build the heartbeat and push it through
`send_raw_event` (its own `try` swallows any error). -/
def send_heartbeat (env : SessionEnv) (st : SessionState) : List JValue × SessionState :=
  send_raw_event st (heartbeat_event env)

/-- What the two layered awaits of `_process_responses` produced in one
loop iteration. -/
inductive StreamPoll where
  /-- `asyncio.TimeoutError` from the outer 30s wait or the inner 10s
  wait. -/
  | timeout : StreamPoll
  /-- a falsy result chunk or one without a `value`. -/
  | emptyResult : StreamPoll
  /-- a chunk whose value has no `bytes_`. -/
  | noBytes : StreamPoll
  /-- decoded UTF-8 payload bytes. -/
  | chunkBytes (response_data : String) : StreamPoll
  /-- `StopAsyncIteration` raised by the stream. -/
  | streamEnded : StreamPoll
  /-- any other exception from the awaits. -/
  | streamError (msg : String) : StreamPoll

/-- Observable outcome of one iteration of the `_process_responses`
loop. -/
structure IterEffects where
  /-- events written to the model stream, in order. -/
  sent_to_stream : List JValue
  /-- events put on the outbound client queue, in order. -/
  queued : List JValue
  /-- whether the `while self.is_active` loop proceeds to its next
  iteration (`false` models `break`). -/
  loop_continues : Bool
  state : SessionState

/-- One iteration of the `while self.is_active` body of
`_process_responses` (s2s_session_manager.py lines 227-313), given what
the layered awaits produced. -/
def process_responses_iteration (env : SessionEnv) (st : SessionState) (poll : StreamPoll) :
    IterEffects :=
  match poll with
  | .timeout =>
    -- timeout: log, heartbeat, continue
    let (sent, st1) := send_heartbeat env st
    ⟨sent, [], true, st1⟩
  | .emptyResult => ⟨[], [], true, st⟩
  | .noBytes => ⟨[], [], true, st⟩
  | .streamEnded => ⟨[], [], true, st⟩
  | .streamError _ => ⟨[], [], false, st⟩
  | .chunkBytes response_data =>
    match env.jsonLoads response_data with
    | .error _ =>
      -- json.JSONDecodeError: forward the raw payload and continue
      ⟨[], [JValue.objV [("raw_data", JValue.strV response_data)]], true, st⟩
    | .ok json0 =>
      match json0 with
      | JValue.objV fields0 =>
        let json_data := JValue.objV (objSet fields0 "timestamp" (JValue.intV env.nowMs))
        match json_data.lookup "event" with
        | none =>
          -- no "event" key: only the outer queue put runs
          ⟨[], [json_data], true, st⟩
        | some ev =>
          match ev with
          | JValue.objV ((event_name, _) :: _) =>
            if event_name = "toolUse" then
              -- capture pending tool state, then the outer queue put
              let tu := ev.lookupD "toolUse" JValue.nullV
              let st1 := { st with toolUseContent := tu }
              match tu.lookup "toolName" with
              | none => ⟨[], [], false, st1⟩  -- KeyError ends the loop
              | some tn =>
                let st2 := { st1 with toolName := tn }
                match tu.lookup "toolUseId" with
                | none => ⟨[], [], false, st2⟩  -- KeyError ends the loop
                | some tid =>
                  let st3 := { st2 with toolUseId := tid }
                  ⟨[], [json_data], true, st3⟩
            else if event_name = "contentEnd" then
              let ce := ev.lookupD "contentEnd" JValue.nullV
              match ce with
              | JValue.objV _ =>
                match ce.lookup "type" with
                | some (JValue.strV "TOOL") =>
                  let prompt_name := ce.lookupD "promptName" JValue.nullV
                  -- camel_to_snake inside processToolUse needs a string name
                  match st.toolName with
                  | JValue.strV tn =>
                    let (toolResult, patient1) :=
                      processToolUse env tn st.toolUseContent st.patient
                    let st1 := { st with patient := patient1 }
                    let toolContent := env.newUuid
                    let tool_start_event :=
                      S2sEvent.content_start_tool prompt_name toolContent st.toolUseId
                    let (s1, st2) := send_raw_event st1 tool_start_event
                    let content_json_string :=
                      if toolResult.isObj then JValue.strV (env.jsonDumps toolResult)
                      else toolResult
                    let tool_result_event :=
                      S2sEvent.text_input_tool prompt_name toolContent content_json_string
                    let (s2, st3) := send_raw_event st2 tool_result_event
                    let tool_content_end_event := S2sEvent.content_end prompt_name toolContent
                    let (s3, st4) := send_raw_event st3 tool_content_end_event
                    let withTs := fun (e : JValue) => jObjSet e "timestamp" (JValue.intV env.nowMs)
                    ⟨s1 ++ s2 ++ s3,
                     [withTs tool_start_event, withTs tool_result_event,
                      withTs tool_content_end_event, json_data],
                     true, st4⟩
                  | _ => ⟨[], [], false, st⟩  -- re.sub on a non-string ends the loop
                | _ => ⟨[], [json_data], true, st⟩
              | _ => ⟨[], [], false, st⟩  -- .get on a non-dict ends the loop
            else
              -- any other event type: only the outer queue put runs
              ⟨[], [json_data], true, st⟩
          | JValue.objV [] => ⟨[], [], false, st⟩  -- keys()[0] raises IndexError
          | _ => ⟨[], [], false, st⟩  -- .keys() on a non-dict raises
      | _ => ⟨[], [], false, st⟩  -- json_data["timestamp"] = ... on a non-dict raises

/-! ## Resource Store Adapter, remote MIMIC implementation
(integration/mimic_fhir_mcp_client.py) -/

mutual

/-- Python `str()` of a parsed-JSON value (only its substrings are ever
inspected by the source, e.g. the `"not found"` probe in `search_by_id`). -/
def JValue.reprStr : JValue → String
  | .nullV => "None"
  | .boolV b => if b then "True" else "False"
  | .intV n => toString n
  | .strV s => "'" ++ s ++ "'"
  | .arrV xs => "[" ++ JValue.reprStrList xs ++ "]"
  | .objV fields => "\x7b" ++ JValue.reprStrObj fields ++ "\x7d"

def JValue.reprStrList : List JValue → String
  | [] => ""
  | [x] => JValue.reprStr x
  | x :: xs => JValue.reprStr x ++ ", " ++ JValue.reprStrList xs

def JValue.reprStrObj : List (String × JValue) → String
  | [] => ""
  | [(k, v)] => "'" ++ k ++ "': " ++ JValue.reprStr v
  | (k, v) :: xs => "'" ++ k ++ "': " ++ JValue.reprStr v ++ ", " ++ JValue.reprStrObj xs

end

/-- One HTTP GET issued against the clinical REST endpoint. -/
structure FhirReq where
  url : String
  params : List (String × JValue)
deriving Repr

/-- The response of `requests.get` as far as `_make_fhir_request` reads
it: status code, error text, content type, and the parsed JSON body
(`.json()` outcome). -/
structure HttpResponse where
  status_code : Int
  text : String
  content_type : String
  body : Except String JValue

/-- Oracle environment for the MIMIC client: the network, the clock, the
standard library, and the Bedrock diagnosis generator are external. -/
structure MimicClientEnv where
  /-- `requests.get` (an `error` is a raised request exception such as a
  timeout or connection reset). -/
  httpGet : FhirReq → Except String HttpResponse
  /-- `json.loads`. -/
  jsonLoads : String → Except String JValue
  /-- Python `hash` of a string in this process. -/
  pyHash : String → Int
  /-- `datetime.datetime.now().isoformat()`. -/
  nowIso : String
  /-- `pandas.to_datetime("today")` / `datetime.now()`, day resolution. -/
  today : Date
  /-- `generate_differential_diagnosis(symptoms, patient_summary)`
  (Bedrock call; an `error` is a raised exception). -/
  diffDiagnosis : String → String → Except String String
  /-- the normalised `rest_endpoint` (environment-provided). -/
  rest_endpoint : String

/-- `mimic_identifier_system` configured in `__init__`. -/
def mimic_identifier_system : String := "http://fhir.mimic.mit.edu/identifier/patient"

/-- `mimic_profile` configured in `__init__`. -/
def mimic_profile : String := "http://fhir.mimic.mit.edu/StructureDefinition/mimic-patient"

/-- `NAME_TO_ID_MAP`. -/
def NAME_TO_ID_MAP : List (String × String) :=
  [("John Smith", "0a8eebfd-a352-522e-89f0-1d4a13abdebc")]

/-- `_make_fhir_request`: issues one GET and normalises every outcome to
`(success, data)`; its own catch-all converts any raised exception into
the error shape, so it never raises. -/
def make_fhir_request (env : MimicClientEnv) (req : FhirReq) : Bool × JValue :=
  match env.httpGet req with
  | .error e =>
    (false, JValue.objV [("error", JValue.strV ("MIMIC HealthLake request failed: " ++ e))])
  | .ok response =>
    if response.status_code == 404 then (true, JValue.arrV [])
    else if response.status_code == 400 then
      (false, JValue.objV [("error", JValue.strV "Invalid MIMIC query parameters"),
        ("details", JValue.strV response.text)])
    else if response.status_code == 403 then
      (false, JValue.objV [("error",
        JValue.strV "Access denied to MIMIC data - check HealthLake permissions")])
    else if response.status_code != 200 then
      (false, JValue.objV [("error", JValue.strV
        ("MIMIC HealthLake error: HTTP " ++ toString response.status_code))])
    else if !(pyInStr "application/json" response.content_type
        || pyInStr "application/fhir+json" response.content_type) then
      (false, JValue.objV [("error",
        JValue.strV "Unexpected response format from MIMIC HealthLake")])
    else
      match response.body with
      | .error _ =>
        (false, JValue.objV [("error",
          JValue.strV "Invalid JSON response from MIMIC HealthLake")])
      | .ok data =>
        let tagResource := fun (resource : JValue) =>
          let r1 := jObjSet (jObjSet resource "_mimic_source" (JValue.strV "healthlake"))
            "_retrieved_at" (JValue.strV env.nowIso)
          let meta := resource.lookupD "meta" JValue.nullV
          if (resource.lookup "meta").isSome && (meta.lookup "profile").isSome then
            let profiles := (meta.lookupD "profile" (JValue.arrV [])).asListD
            if profiles.any (fun p => pyInStr "mimic" p.asStrD) then
              jObjSet r1 "_mimic_validated" (JValue.boolV true)
            else r1
          else r1
        if data.isObj && JValue.beq (data.lookupD "resourceType" JValue.nullV)
            (JValue.strV "Bundle") then
          let resources := ((data.lookupD "entry" (JValue.arrV [])).asListD.filterMap
            (fun entry =>
              match entry.lookup "resource" with
              | some resource => some (tagResource resource)
              | none => none))
          (true, JValue.arrV resources)
        else if data.isObj && (data.lookup "resourceType").isSome then
          if JValue.beq (data.lookupD "resourceType" JValue.nullV)
              (JValue.strV "OperationOutcome") then
            let issues := (data.lookupD "issue" (JValue.arrV [])).asListD
            if issues.any (fun issue =>
                isStrEq (issue.lookupD "severity" JValue.nullV) "error"
                || isStrEq (issue.lookupD "severity" JValue.nullV) "fatal") then
              let msgs := issues.map (fun issue =>
                (issue.lookupD "diagnostics" (JValue.strV "Unknown error")).asStrD)
              (false, JValue.objV [("error",
                JValue.strV ("MIMIC FHIR error: " ++ String.intercalate "; " msgs))])
            else (true, JValue.arrV [])
          else (true, JValue.arrV [tagResource data])
        else (true, data)

/-- Does a `(success, data)` pair satisfy the source's
`success and data and isinstance(data, list) and len(data) > 0` probe? -/
def foundPatients (p : Bool × JValue) : Bool :=
  p.1 && p.2.truthy && p.2.isArr && !p.2.asListD.isEmpty

/-- The identifier-based search request of `find_patient` (strategy 1). -/
def identifierSearchReq (env : MimicClientEnv) (query : String) : FhirReq :=
  ⟨env.rest_endpoint ++ "/Patient",
   [("identifier", JValue.strV (mimic_identifier_system ++ "|" ++ query)),
    ("_count", JValue.intV 20)]⟩

/-- The name-pattern search request of `find_patient` (strategy 2). -/
def nameSearchReq (env : MimicClientEnv) (query : String) : FhirReq :=
  ⟨env.rest_endpoint ++ "/Patient",
   [("name", JValue.strV query), ("_count", JValue.intV 20)]⟩

/-- The `name:contains` search request of `find_patient` (strategy 3). -/
def containsSearchReq (env : MimicClientEnv) (query : String) : FhirReq :=
  ⟨env.rest_endpoint ++ "/Patient",
   [("name:contains", JValue.strV ("Patient_" ++ query)), ("_count", JValue.intV 20)]⟩

/-- The `_content` text search request of `find_patient` (strategy 4). -/
def contentSearchReq (env : MimicClientEnv) (query : String) : FhirReq :=
  ⟨env.rest_endpoint ++ "/Patient",
   [("_content", JValue.strV query), ("_count", JValue.intV 20)]⟩

/-- The synthetic placeholder patient built when every search strategy
fails. -/
def syntheticPatient (env : MimicClientEnv) (query : String) : JValue :=
  let synthetic_id := "synthetic-" ++ toString ((env.pyHash query).emod 10000000)
  JValue.objV
    [("resourceType", JValue.strV "Patient"),
     ("id", JValue.strV synthetic_id),
     ("identifier", JValue.arrV [JValue.objV
        [("system", JValue.strV mimic_identifier_system),
         ("value", JValue.strV synthetic_id)]]),
     ("name", JValue.arrV [JValue.objV
        [("use", JValue.strV "official"),
         ("family", JValue.strV (if pyInStr " " query then
            ((pySplitWs query).getLast?).getD query else query)),
         ("given", JValue.arrV (if pyInStr " " query then
            ((pySplitWs query).dropLast).map JValue.strV else []))]]),
     ("gender", JValue.strV "unknown"),
     ("_mimic_source", JValue.strV "synthetic"),
     ("_retrieved_at", JValue.strV env.nowIso),
     ("_synthetic", JValue.boolV true)]

/-- `find_patient` (MIMIC client): strip the query, serve the static name
map, then try identifier / name / name-pattern / text search in order,
and fall back to a single synthetic patient. Instrumented with the list
of FHIR requests issued, in order. -/
def find_patient (env : MimicClientEnv) (params : JValue) : Except String (JValue × List FhirReq) := do
  let query ←
    match params.lookupD "query" (JValue.strV "") with
    | JValue.strV s => pure (pyStrip s)
    | _ => throw "AttributeError: strip on a non-string query"
  -- static name map branch
  match NAME_TO_ID_MAP.find? (fun p => p.1 = query) with
  | some (_, mapped_id) =>
    let fallback_patient := JValue.objV
      [("resourceType", JValue.strV "Patient"),
       ("id", JValue.strV mapped_id),
       ("identifier", JValue.arrV [JValue.objV
          [("system", JValue.strV mimic_identifier_system),
           ("value", JValue.strV mapped_id)]]),
       ("name", JValue.arrV [JValue.objV
          [("use", JValue.strV "official"),
           ("family", JValue.strV (if pyInStr " " query then
              ((pySplitWs query).getLast?).getD query else query)),
           ("given", JValue.arrV (if pyInStr " " query then
              ((pySplitWs query).dropLast).map JValue.strV else []))]]),
       ("gender", JValue.strV "unknown"),
       ("_mimic_source", JValue.strV "local_mapping"),
       ("_retrieved_at", JValue.strV env.nowIso)]
    let req : FhirReq := ⟨env.rest_endpoint ++ "/Patient/" ++ mapped_id, []⟩
    let out := make_fhir_request env req
    if foundPatients out then pure (out.2, [req])
    else pure (fallback_patient, [req])
  | none =>
    -- strategy 1: identifier search for all-digit queries
    let step1 : Option JValue × List FhirReq :=
      if pyIsDigit query then
        let req := identifierSearchReq env query
        let out := make_fhir_request env req
        (if foundPatients out then some out.2 else none, [req])
      else (none, [])
    match step1 with
    | (some data, trace) => pure (data, trace)
    | (none, trace1) =>
      -- strategy 2: name search
      let req2 := nameSearchReq env query
      let out2 := make_fhir_request env req2
      if foundPatients out2 then pure (out2.2, trace1 ++ [req2])
      else
        -- strategy 3: name:contains Patient_<query>
        let step3 : Option JValue × List FhirReq :=
          if !(pyStartsWith query "Patient_") then
            let req := containsSearchReq env query
            let out := make_fhir_request env req
            (if foundPatients out then some out.2 else none, [req])
          else (none, [])
        match step3 with
        | (some data, trace3) => pure (data, trace1 ++ [req2] ++ trace3)
        | (none, trace3) =>
          -- strategy 4: _content text search
          let req4 := contentSearchReq env query
          let out4 := make_fhir_request env req4
          if foundPatients out4 then pure (out4.2, trace1 ++ [req2] ++ trace3 ++ [req4])
          else
            -- fallback: synthetic single-patient placeholder
            pure (JValue.arrV [syntheticPatient env query],
              trace1 ++ [req2] ++ trace3 ++ [req4])

/-- Python `str()` rendering used in f-strings: strings stay bare,
everything else gets its repr. -/
def pyStr (v : JValue) : String :=
  match v with
  | JValue.strV s => s
  | other => other.reprStr

/-- `search_by_type` (MIMIC client). -/
def mimic_search_by_type (env : MimicClientEnv) (params : JValue) : Except String JValue := do
  let resource_type ←
    match params.lookupD "resource_type" (JValue.strV "") with
    | JValue.strV s => pure (pyStrip s)
    | _ => throw "AttributeError: strip on a non-string resource_type"
  if resource_type = "" then
    pure (JValue.objV [("error", JValue.strV "resource_type parameter required")])
  else
    let base : List (String × JValue) :=
      [("_count", params.lookupD "count" (JValue.intV 100)),
       ("_sort", params.lookupD "sort" (JValue.strV "id"))]
    let search_params :=
      if resource_type = "Patient" then objSet base "_profile" (JValue.strV mimic_profile)
      else base
    let out := make_fhir_request env ⟨env.rest_endpoint ++ "/" ++ resource_type, search_params⟩
    -- `return data if success else data` is `data` either way
    pure out.2

/-- `search_by_id` (MIMIC client); on a failed lookup whose error text
mentions `not found` it falls back to `find_patient`. -/
def mimic_search_by_id (env : MimicClientEnv) (params : JValue) : Except String JValue := do
  let resource_id ←
    match params.lookupD "resource_id" (JValue.strV "") with
    | JValue.strV s => pure (pyStrip s)
    | _ => throw "AttributeError: strip on a non-string resource_id"
  let resource_type ←
    match params.lookupD "resource_type" (JValue.strV "Patient") with
    | JValue.strV s => pure (pyStrip s)
    | _ => throw "AttributeError: strip on a non-string resource_type"
  if resource_id = "" then
    pure (JValue.objV [("error", JValue.strV "resource_id parameter required")])
  else
    let out := make_fhir_request env
      ⟨env.rest_endpoint ++ "/" ++ resource_type ++ "/" ++ resource_id, []⟩
    if out.1 && out.2.truthy then pure out.2
    else if !out.1 && pyInStr "not found" (pyLower (out.2.reprStr)) then do
      let fp ← find_patient env (JValue.objV [("query", JValue.strV resource_id)])
      pure fp.1
    else pure out.2

/-- `_classify_mimic_observation`. -/
def classify_mimic_observation (observation : JValue) : String :=
  if (observation.lookup "code").isSome
      && ((observation.lookupD "code" JValue.nullV).lookup "coding").isSome then
    let codings := ((observation.lookupD "code" JValue.nullV).lookupD "coding"
      (JValue.arrV [])).asListD
    let rec scan : List JValue → String
      | [] => "other"
      | coding :: rest =>
        let display := pyLower ((coding.lookupD "display" (JValue.strV "")).asStrD)
        if pyInStr "blood pressure" display || pyInStr "heart rate" display
            || pyInStr "temperature" display || pyInStr "respiratory rate" display then
          "vital_sign"
        else if pyInStr "hemoglobin" display || pyInStr "glucose" display
            || pyInStr "creatinine" display || pyInStr "sodium" display then
          "laboratory"
        else if pyInStr "oxygen" display then "respiratory"
        else scan rest
    scan codings
  else "other"

/-- `get_patient_observations` (MIMIC client): query, then tag each
returned observation that carries a `code`. -/
def mimic_get_patient_observations (env : MimicClientEnv) (params : JValue) :
    Except String JValue := do
  let patient_id ←
    match params.lookupD "patient_id" (JValue.strV "") with
    | JValue.strV s => pure (pyStrip s)
    | _ => throw "AttributeError: strip on a non-string patient_id"
  if patient_id = "" then
    pure (JValue.objV [("error", JValue.strV "patient_id parameter required")])
  else
    let base : List (String × JValue) :=
      [("patient", JValue.strV ("Patient/" ++ patient_id)),
       ("_count", params.lookupD "count" (JValue.intV 100)),
       ("_sort", JValue.strV "-date")]
    let search_params :=
      match params.lookup "category" with
      | some category => if category.truthy then objSet base "category" category else base
      | none => base
    let out := make_fhir_request env ⟨env.rest_endpoint ++ "/Observation", search_params⟩
    if out.1 && out.2.truthy then
      match out.2 with
      | JValue.arrV obs =>
        pure (JValue.arrV (obs.map (fun o =>
          if (o.lookup "code").isSome && o.isObj then
            jObjSet o "_mimic_observation_type" (JValue.strV (classify_mimic_observation o))
          else o)))
      | JValue.objV fields =>
        -- iterating a dict walks its keys; a key containing "code" would
        -- make the item assignment on a string raise
        if fields.any (fun p => pyInStr "code" p.1) then
          throw "TypeError: str does not support item assignment"
        else pure out.2
      | JValue.strV _ => pure out.2
      | _ => throw "TypeError: object is not iterable"
    else pure out.2

/-- `_get_patient_resource` (MIMIC client). -/
def mimic_get_patient_resource (env : MimicClientEnv) (resource_type : String)
    (params : JValue) : Except String JValue := do
  let patient_id ←
    match params.lookupD "patient_id" (JValue.strV "") with
    | JValue.strV s => pure (pyStrip s)
    | _ => throw "AttributeError: strip on a non-string patient_id"
  if patient_id = "" then
    pure (JValue.objV [("error", JValue.strV ("patient_id required for " ++ resource_type))])
  else
    let base : List (String × JValue) :=
      [("patient", JValue.strV ("Patient/" ++ patient_id)),
       ("_count", params.lookupD "count" (JValue.intV 100)),
       ("_sort", params.lookupD "sort" (JValue.strV "-_lastUpdated"))]
    let search_params :=
      if resource_type = "Condition" || resource_type = "MedicationRequest"
          || resource_type = "CarePlan" then
        objSet base "status" (JValue.strV "active")
      else base
    let out := make_fhir_request env ⟨env.rest_endpoint ++ "/" ++ resource_type, search_params⟩
    if !out.1 then
      pure (JValue.objV [("error", JValue.strV ("Failed to retrieve " ++ resource_type))])
    else
      match out.2 with
      | JValue.nullV => pure (JValue.arrV [])
      | JValue.objV _ =>
        if (out.2.lookup "entry").isSome then
          pure (JValue.arrV (((out.2.lookupD "entry" (JValue.arrV [])).asListD.filterMap
            (fun entry =>
              if (entry.lookup "resource").isSome then
                some (entry.lookupD "resource" JValue.nullV)
              else none))))
        else pure (JValue.arrV [])
      | JValue.arrV _ => pure out.2
      | _ => pure (JValue.arrV [])

/-- The exception boundary of `call_tool` applied to an internal routed
call: a raised error becomes the `error` shape (used for the nested
`self.call_tool(...)` invocations of `get_patient_object`, whose inputs
are well-formed dicts that route directly to the method). -/
def callToolShell (x : Except String JValue) : JValue :=
  match x with
  | .ok v => v
  | .error e => JValue.objV [("error", JValue.strV ("MIMIC tool execution failed: " ++ e))]

/-- `_populate_patient_data`: pull observations, conditions, medications,
encounters and procedures through the tool interface and feed every
returned list into the patient parsers (`create_data_frames` is
pandas-only and outside the state model). -/
def populate_patient_data (env : MimicClientEnv) (patient : MimicPatient)
    (patient_id : String) : MimicPatient :=
  let observations := callToolShell (mimic_get_patient_observations env
    (JValue.objV [("patient_id", JValue.strV patient_id), ("count", JValue.intV 1000)]))
  let patient :=
    match observations with
    | JValue.arrV obs =>
      obs.foldl (fun pt o => MimicPatient.parse_observation_resource o pt) patient
    | _ => patient
  let conditions := callToolShell (mimic_get_patient_resource env "Condition"
    (JValue.objV [("patient_id", JValue.strV patient_id)]))
  let patient :=
    match conditions with
    | JValue.arrV cs =>
      cs.foldl (fun pt c => MimicPatient.parse_condition_resource c pt) patient
    | _ => patient
  let medications := callToolShell (mimic_get_patient_resource env "MedicationRequest"
    (JValue.objV [("patient_id", JValue.strV patient_id)]))
  let patient :=
    match medications with
    | JValue.arrV ms =>
      ms.foldl (fun pt m => MimicPatient.parse_medication_resource m pt) patient
    | _ => patient
  let encounters := callToolShell (mimic_get_patient_resource env "Encounter"
    (JValue.objV [("patient_id", JValue.strV patient_id)]))
  let patient :=
    match encounters with
    | JValue.arrV es =>
      es.foldl (fun pt e => MimicPatient.parse_encounter_resource env.today e pt) patient
    | _ => patient
  let procedures := callToolShell (mimic_get_patient_resource env "Procedure"
    (JValue.objV [("patient_id", JValue.strV patient_id)]))
  match procedures with
  | JValue.arrV ps =>
    ps.foldl (fun pt p => MimicPatient.parse_procedure_resource p pt) patient
  | _ => patient

/-- The client's `patient_cache` (keys model the Python dict keys). -/
abbrev PatientCache := List (String × MimicPatient)

/-- `patient_cache[k] = v` (insertion-ordered dict update). -/
def cacheSet (cache : PatientCache) (k : String) (v : MimicPatient) : PatientCache :=
  if cache.any (fun p => p.1 = k) then
    cache.map (fun p => if p.1 = k then (k, v) else p)
  else cache ++ [(k, v)]

/-- `get_patient_object`: serve the cache, otherwise build the patient
from the demographics lookup plus `_populate_patient_data` and cache it.
Every internal tool call goes through the exception boundary, and the
parsers are total, so the method's own `except` arm (returning `None`)
is unreachable in the model. -/
def get_patient_object (env : MimicClientEnv) (cache : PatientCache)
    (patient_id : String) : Option MimicPatient × PatientCache :=
  match (List.find? (fun p => p.1 = patient_id) cache).map Prod.snd with
  | some patient => (some patient, cache)
  | none =>
    let patient := MimicPatient.init (some patient_id)
    let patient_result := callToolShell (mimic_search_by_id env
      (JValue.objV [("resource_id", JValue.strV patient_id),
                    ("resource_type", JValue.strV "Patient")]))
    let patient :=
      match patient_result with
      | JValue.arrV (first :: _) => MimicPatient.parse_patient_resource first patient
      | _ => patient
    let patient := populate_patient_data env patient patient_id
    (some patient, cacheSet cache patient_id patient)

namespace MimicFhirMcpClient

/-- Body of `MimicFhirMcpClient.call_tool` inside its `try` (the tool
router of integration/mimic_fhir_mcp_client.py lines 479-578). All cache
mutations happen on paths whose exceptions are caught locally, so errors
leave the incoming cache unchanged. -/
def call_tool_body (env : MimicClientEnv) (cache : PatientCache) (input_data : JValue) :
    Except String (JValue × PatientCache) := do
  let input1 ←
    match input_data with
    | JValue.strV s => env.jsonLoads s
    | other => pure other
  let tool_name ←
    match input1 with
    | JValue.objV _ => pure (input1.lookupD "tool" JValue.nullV)
    | _ => throw "AttributeError: object has no attribute get"
  let params := input1.lookupD "parameters" (JValue.objV [])
  if !tool_name.truthy then
    pure (JValue.objV [("error", JValue.strV "Missing 'tool' parameter")], cache)
  else
    let requireMapping : Except String Unit :=
      if params.isObj then pure () else throw "TypeError: argument after ** must be a mapping"
    let tn := tool_name
    if isStrEq tn "find_patient" then do
      requireMapping
      let fp ← find_patient env params
      pure (fp.1, cache)
    else if isStrEq tn "search_by_type" then do
      requireMapping
      let r ← mimic_search_by_type env params
      pure (r, cache)
    else if isStrEq tn "search_by_id" then do
      requireMapping
      let r ← mimic_search_by_id env params
      pure (r, cache)
    else if isStrEq tn "get_patient_observations" then do
      requireMapping
      let r ← mimic_get_patient_observations env params
      pure (r, cache)
    else if isStrEq tn "get_patient_conditions" then do
      let r ← mimic_get_patient_resource env "Condition" params
      pure (r, cache)
    else if isStrEq tn "get_patient_medications"
        || isStrEq tn "get_patient_medication"
        || isStrEq tn "getPatientMedication" then do
      let r ← mimic_get_patient_resource env "MedicationRequest" params
      -- never return null for medications
      match r with
      | JValue.nullV => pure (JValue.arrV [], cache)
      | other => pure (other, cache)
    else if isStrEq tn "get_patient_encounters" then do
      let r ← mimic_get_patient_resource env "Encounter" params
      pure (r, cache)
    else if isStrEq tn "get_patient_procedures" then do
      let r ← mimic_get_patient_resource env "Procedure" params
      pure (r, cache)
    else if isStrEq tn "get_vital_signs" then do
      (if params.isObj then pure ()
       else throw "TypeError: object does not support item assignment")
      let r ← mimic_get_patient_observations env
        (jObjSet params "category" (JValue.strV "vital-signs"))
      pure (r, cache)
    else if isStrEq tn "get_lab_results" then do
      (if params.isObj then pure ()
       else throw "TypeError: object does not support item assignment")
      let r ← mimic_get_patient_observations env
        (jObjSet params "category" (JValue.strV "laboratory"))
      pure (r, cache)
    else if isStrEq tn "differential_diagnosis" then
      let patient_id := if params.isObj then params.lookupD "patient_id" JValue.nullV
        else JValue.nullV
      let symptoms := if params.isObj then params.lookupD "symptoms" (JValue.strV "")
        else JValue.strV ""
      let pair :=
        if patient_id.truthy then
          match get_patient_object env cache (pyStr patient_id) with
          | (some p, cache1) =>
            -- voice summary fills the patient's summary cache in place
            let (vs, p1) := MimicPatient.get_voice_summary env.today p
            (vs, cacheSet cache1 (pyStr patient_id) p1)
          | (none, cache1) => ("", cache1)
        else ("", cache)
      match env.diffDiagnosis (pyStr symptoms) pair.1 with
      | .ok result_text => pure (JValue.objV [("result", JValue.strV result_text)], pair.2)
      | .error exc => pure (JValue.objV [("error", JValue.strV exc)], pair.2)
    else if isStrEq tn "schedule_follow_up"
        || isStrEq tn "scheduleFollowUp" then
      if !params.isObj then
        pure (JValue.objV [("error", JValue.strV "Parameters must be an object")], cache)
      else
        let patient_id := params.lookupD "patient_id" JValue.nullV
        let scheduled_time := params.lookupD "scheduled_time" JValue.nullV
        let reason := params.lookupD "reason" (JValue.strV "")
        if !patient_id.truthy || !scheduled_time.truthy then
          pure (JValue.objV [("error",
            JValue.strV "'patient_id' and 'scheduled_time' are required")], cache)
        else
          let key := pyStr patient_id
          let (pObj, cache1) := get_patient_object env cache key
          let patient_obj :=
            match pObj with
            | some p => p
            | none => MimicPatient.init (some key)
          let patient_obj := MimicPatient.schedule_follow_up (pyStr scheduled_time)
            (pyStr reason) patient_obj
          pure (JValue.objV [("result", JValue.objV
              [("patient_id", patient_id),
               ("scheduled_time", scheduled_time),
               ("reason", reason)])],
            cacheSet cache1 key patient_obj)
    else
      pure (JValue.objV [("error",
        JValue.strV ("Unknown MIMIC tool: " ++ pyStr tool_name))], cache)

/-- `MimicFhirMcpClient.call_tool`: the router above behind its
catch-all `except`, which converts any exception into the
`MIMIC tool execution failed` error shape. Never raises. -/
def call_tool (env : MimicClientEnv) (cache : PatientCache) (input_data : JValue) :
    JValue × PatientCache :=
  match call_tool_body env cache input_data with
  | .ok r => r
  | .error e =>
    (JValue.objV [("error", JValue.strV ("MIMIC tool execution failed: " ++ e))], cache)

end MimicFhirMcpClient

/-! ## Resource Store Adapter, plain implementation
(integration/fhir_mcp_client.py) -/

/-- Oracle environment of `FhirMcpClient`: the HTTP layer and the local
`FHIRSearch` store (src/fhir/fhir_search.py) are collaborators behind
this interface. `search = none` models the AWS mode, where the instance
has no `self.search` attribute at all. -/
structure FhirClientEnv where
  /-- `json.loads`. -/
  jsonLoads : String → Except String JValue
  /-- `requests.get(...).json()` (an `error` is a raised exception). -/
  httpJson : FhirReq → Except String JValue
  /-- `getattr(self.search, name)` when `self.search` exists: `none` for
  a missing method (raises `AttributeError`); the returned callable may
  itself raise. -/
  search : Option (String → Option (JValue → Except String JValue))
  aws_enabled : Bool
  rest_endpoint : String

/-- Python `.get(k, d)`: raises `AttributeError` on non-dicts. -/
def jGetAttrD (v : JValue) (k : String) (d : JValue) : Except String JValue :=
  match v with
  | JValue.objV _ => pure (v.lookupD k d)
  | _ => throw "AttributeError: object has no attribute get"

namespace FhirMcpClient

/-- The `patient_map` of patient-centric REST tools. -/
def patient_map : List (String × String) :=
  [("get_patient_observations", "Observation"),
   ("get_patient_conditions", "Condition"),
   ("get_patient_medications", "MedicationRequest"),
   ("get_patient_encounters", "Encounter"),
   ("get_patient_allergies", "AllergyIntolerance"),
   ("get_patient_procedures", "Procedure"),
   ("get_patient_careteam", "CareTeam"),
   ("get_patient_careplans", "CarePlan")]

/-- Body of the AWS REST branch `try` of `FhirMcpClient.call_tool`
(fhir_mcp_client.py lines 113-162): `some v` is a `return v` from inside
the `try`, `none` means no branch matched and control falls through to
the local dispatch. -/
def awsBranchBody (env : FhirClientEnv) (tool_name : JValue) (params : JValue) :
    Except String (Option JValue) := do
  let base := env.rest_endpoint
  let entriesOf := fun (bundle : JValue) => do
    let entry ← jGetAttrD bundle "entry" (JValue.arrV [])
    (entry.asListD).mapM (fun e => pySubscript e "resource")
  if isStrEq tool_name "search_by_type" then do
    let rt ← pySubscript params "resource_type"
    let bundle ← env.httpJson ⟨base ++ "/" ++ pyStr rt, []⟩
    let resources ← entriesOf bundle
    pure (some (JValue.arrV resources))
  else if isStrEq tool_name "search_by_id" then do
    let rt ← pySubscript params "resource_type"
    let rid ← pySubscript params "resource_id"
    let body ← env.httpJson ⟨base ++ "/" ++ pyStr rt ++ "/" ++ pyStr rid, []⟩
    pure (some body)
  else if isStrEq tool_name "search_by_text"
      || isStrEq tool_name "clinical_query" then do
    let q ← jGetAttrD params "query" (JValue.strV "")
    let bundle ← env.httpJson ⟨base, [("_text", q)]⟩
    let resources ← entriesOf bundle
    pure (some (JValue.arrV resources))
  else if isStrEq tool_name "find_patient" then do
    let q ← pySubscript params "query"
    let bundle ← env.httpJson ⟨base ++ "/Patient", [("name:contains", q)]⟩
    let resources ← entriesOf bundle
    pure (some (JValue.arrV resources))
  else
    match tool_name with
    | JValue.strV tn =>
      match (patient_map.find? (fun p => p.1 = tn)).map Prod.snd with
      | some resource => do
        let pid ← jGetAttrD params "patient_id" JValue.nullV
        let bundle ← env.httpJson
          ⟨base ++ "/" ++ resource, [("patient", JValue.strV ("Patient/" ++ pyStr pid))]⟩
        let resources ← entriesOf bundle
        pure (some (JValue.arrV resources))
      | none => pure none
    | _ => pure none

/-- `FhirMcpClient.call_tool`. Unlike the MIMIC client there is no
catch-all: the string-input decode, the `.get` on a non-dict input, the
explicit `raise ValueError` for a missing tool name and the local
dispatch all raise past the boundary; only the AWS REST branch has a
`try` (whose handler returns `[]`). An AWS-mode call whose tool matches
no REST branch falls through to the local dispatch, where the missing
`self.search` attribute raises. -/
def call_tool (env : FhirClientEnv) (input : JValue) : Except String JValue := do
  let input1 ←
    match input with
    | JValue.strV s => env.jsonLoads s
    | other => pure other
  let tool_name ←
    match input1 with
    | JValue.objV _ => pure (input1.lookupD "tool" JValue.nullV)
    | _ => throw "AttributeError: object has no attribute get"
  let params := input1.lookupD "parameters" (JValue.objV [])
  if !tool_name.truthy then
    throw "ValueError: Missing tool in input payload"
  else do
    let viaAws : Option JValue ←
      if env.aws_enabled then
        match awsBranchBody env tool_name params with
        | .ok v => pure v
        | .error _ => pure (some (JValue.arrV []))  -- except: log and return []
      else pure none
    match viaAws with
    | some v => pure v
    | none =>
      -- local fallback: method = getattr(self.search, tool_name); method(**params)
      match env.search with
      | none => throw "AttributeError: FhirMcpClient object has no attribute search"
      | some search =>
        match tool_name with
        | JValue.strV tn =>
          match search tn with
          | none => throw ("AttributeError: FHIRSearch object has no attribute " ++ tn)
          | some method =>
            if !params.isObj then throw "TypeError: argument after ** must be a mapping"
            else method params
        | _ => throw "TypeError: attribute name must be string"

end FhirMcpClient

/-! ## Realtime Transcription Adapter (integration/streaming_transcribe.py) -/

/-- One alternative of a transcript result (`confidence` is only carried
through, so its float value is modelled as a rational). -/
structure TranscriptAlt where
  transcript : String
  confidence : Option Rat := none
deriving Repr

/-- One speaker-labelled result inside a transcript event; optional
fields model `getattr(result, name, default)`. -/
structure TranscriptResult where
  alternatives : List TranscriptAlt
  speaker_label : Option String := none
  start_time : Option Rat := none
  end_time : Option Rat := none
  /-- the `is_partial` attribute. -/
  partial_flag : Option Bool := none
deriving Repr

/-- A published `TranscriptLine` (line id and wall-clock timestamp come
from the ambient clock and are oracle inputs). -/
structure TranscriptLine where
  line_id : String
  speaker : String
  text : String
  confidence : Rat
  start_time : Rat
  end_time : Rat
  /-- the `is_partial` field of the line. -/
  partial_flag : Bool
deriving Repr

/-- The mutable state of `TranscribeEventHandler`: the configured
`speaker_labels` flag plus the first-come `speaker_map`. -/
structure TranscribeHandlerState where
  speaker_labels : Bool := true
  speaker_map : List (String × String) := []
deriving Repr

/-- `_get_friendly_speaker_name`: first distinct backend label becomes
`doctor`, the second `patient`, later ones `speaker_<n+1>`; an existing
binding is simply returned, so a label keeps its name for the session. -/
def get_friendly_speaker_name (m : List (String × String)) (speaker_label : String) :
    String × List (String × String) :=
  match (m.find? (fun p => p.1 = speaker_label)).map Prod.snd with
  | some friendly => (friendly, m)
  | none =>
    let speaker_count := m.length
    let friendly_name :=
      if speaker_count = 0 then "doctor"
      else if speaker_count = 1 then "patient"
      else "speaker_" ++ toString (speaker_count + 1)
    (friendly_name, m ++ [(speaker_label, friendly_name)])

/-- One turn of the `for result in results` loop of
`handle_transcript_event`: skip empty alternatives and blank text,
resolve the friendly speaker name (which updates the first-come map even
for partial results), then drop partial results and publish a
`TranscriptLine` for each final one. -/
def handle_transcript_result (lineId : String)
    (acc : TranscribeHandlerState × List TranscriptLine) (result : TranscriptResult) :
    TranscribeHandlerState × List TranscriptLine :=
  match acc with
  | (st, out) =>
    match result.alternatives with
    | [] => (st, out)
    | alternative :: _ =>
      let transcript_text := alternative.transcript
      if pyStrip transcript_text = "" then (st, out)
      else
        let confidence := alternative.confidence.getD 0
        let resolved :=
          match result.speaker_label with
          | some l => if st.speaker_labels then get_friendly_speaker_name st.speaker_map l
                      else ("unknown", st.speaker_map)
          | none => ("unknown", st.speaker_map)
        let st1 := { st with speaker_map := resolved.2 }
        let start_time := result.start_time.getD 0
        let end_time := result.end_time.getD 0
        let partialFlag := result.partial_flag.getD false
        if partialFlag then (st1, out)
        else
          (st1, out ++ [(⟨lineId, resolved.1, transcript_text, confidence,
            start_time, end_time, partialFlag⟩ : TranscriptLine)])

/-- `handle_transcript_event`: walk the results with
`handle_transcript_result`, accumulating the published lines in order.
`line_id` and `timestamp` come from the clock oracle `lineId`. -/
def handle_transcript_event (lineId : String) (st : TranscribeHandlerState)
    (results : List TranscriptResult) : TranscribeHandlerState × List TranscriptLine :=
  results.foldl (handle_transcript_result lineId) (st, [])

/-! ## Instrumentation definitions and concrete fixtures used by the
theorems below -/

/-- The `resourceType` discriminant of a resource mapping, when it is a
string (the only case the dispatch table can match). -/
def resourceTypeName (resource : JValue) : Option String :=
  match resource.lookup "resourceType" with
  | some (JValue.strV t) => some t
  | _ => none

/-- Modelled from the spec: "the whole number of years (floor) from the
birth date to the end date ... never negative" read as complete calendar
years elapsed. Defined only to compare the specification's wording with
`MimicPatient.calculate_age`. -/
def specWholeYearsAge (birth endD : Date) : Int :=
  let completed := endD.year - birth.year -
    (if endD.month < birth.month || (endD.month == birth.month && endD.day < birth.day)
     then 1 else 0)
  max 0 completed

/-- The top-level event-type key of an s2s event mapping (the
classification used by `_process_responses`). -/
def eventKindOf (e : JValue) : Option String :=
  match e.lookup "event" with
  | some (JValue.objV ((k, _) :: _)) => some k
  | _ => none

/-- A session environment whose `json.loads` oracle rejects every string
except `"CE"`, which decodes to a `contentEnd` event of payload type
`TOOL`. -/
def fixtureSessionEnv : SessionEnv where
  jsonLoads := fun s =>
    if s = "CE" then
      .ok (JValue.objV [("event", JValue.objV [("contentEnd", JValue.objV
        [("type", JValue.strV "TOOL"), ("promptName", JValue.strV "p0")])])])
    else .error "Expecting value: line 1 column 1 (char 0)"
  jsonDumps := fun _ => "dumped"
  newUuid := "uuid-1"
  nowMs := 1760000000000
  nowUtcString := "Sunday, 2026-10-12 00-00-00"
  today := ⟨2026, 10, 12⟩
  clientCallTool := none

/-- A session state in its Active phase with a pending `findPatient`
tool call. -/
def fixtureSessionState : SessionState where
  is_active := true
  stream_open := true
  toolUseContent := JValue.objV [("content", JValue.strV "not json"),
    ("toolName", JValue.strV "findPatient"), ("toolUseId", JValue.strV "t1")]
  toolUseId := JValue.strV "t1"
  toolName := JValue.strV "findPatient"
  patient := {}

/-- A plain-client environment in AWS mode whose HTTP oracle always
times out (its exact behaviour is irrelevant to the raising paths). -/
def fixtureFhirClientEnv : FhirClientEnv where
  jsonLoads := fun _ => .error "Expecting value: line 1 column 1 (char 0)"
  httpJson := fun _ => .error "requests.exceptions.ConnectTimeout"
  search := none
  aws_enabled := true
  rest_endpoint := "https://healthlake.example/r4"

/-- A MIMIC-client environment whose backend returns an empty bundle for
every request (HTTP 200 with zero entries). -/
def fixtureMimicEnv : MimicClientEnv where
  httpGet := fun _ => .ok
    ⟨200, "", "application/fhir+json",
     .ok (JValue.objV [("resourceType", JValue.strV "Bundle"), ("entry", JValue.arrV [])])⟩
  jsonLoads := fun _ => .error "Expecting value: line 1 column 1 (char 0)"
  pyHash := fun _ => 987654321
  nowIso := "2026-10-12T00:00:00"
  today := ⟨2026, 10, 12⟩
  diffDiagnosis := fun _ _ => .error "bedrock unavailable"
  rest_endpoint := "https://healthlake.example/r4"

/-- A patient state holding only a birth date of 1950-01-01 (as
`parse_patient_resource` would leave it for a birth-date-only Patient
resource, modulo the untouched fields). -/
def patientBorn1950 : MimicPatient :=
  { demographics := { birth_date := JValue.strV "1950-01-01" } }

/-- A patient state with a birth date far in the future. -/
def patientBornFuture : MimicPatient :=
  { demographics := { birth_date := JValue.strV "2050-01-01" } }

/-- A patient state with birth date 1950-01-01 and deceased date
2020-12-31 (one day before the 71st birthday). -/
def patientBorn1950Deceased : MimicPatient :=
  { demographics :=
      { birth_date := JValue.strV "1950-01-01"
        deceased_date := JValue.strV "2020-12-31" } }

/-- A minimal Observation resource mapping. -/
def sampleObservation (i : String) : JValue :=
  JValue.objV [("resourceType", JValue.strV "Observation"), ("id", JValue.strV i)]

/-! ## Theorems -/

/-- C6: for every resource mapping whose `resourceType` is not one of the
recognized types, `parse_resource` is a no-op: the returned state (its
demographics, every clinical sequence, and the timeline) is exactly the
input state, and the total embedding returns normally (no exception is
raised on the default dispatch arm). -/
theorem parse_resource_unknown_type_noop (now : Date) (resource : JValue) (st : MimicPatient)
    (h : ∀ t ∈ MimicPatient.recognizedResourceTypes, resourceTypeName resource ≠ some t) :
    MimicPatient.parse_resource now resource st = st := by
  unfold MimicPatient.parse_resource
  rcases hr : resource.lookup "resourceType" with _ | v
  · rfl
  · rcases v with _ | b | n | t | xs | fs <;> try rfl
    have ht : resourceTypeName resource = some t := by
      simp [resourceTypeName, hr]
    have hall : t ∉ MimicPatient.recognizedResourceTypes := fun hmem => h t hmem ht
    simp only [MimicPatient.recognizedResourceTypes, List.mem_cons,
      List.not_mem_nil, or_false, not_or] at hall
    obtain ⟨h1, h2, h3, h4, h5, h6, h7, h8, h9, h10, h11⟩ := hall
    simp [h1, h2, h3, h4, h5, h6, h7, h8, h9, h10, h11]

/-- Witness for C6 at a concrete `DiagnosticReport` resource. -/
theorem parse_resource_unknown_type_noop_witness :
    (∀ t ∈ MimicPatient.recognizedResourceTypes,
      resourceTypeName (JValue.objV [("resourceType", JValue.strV "DiagnosticReport"),
        ("id", JValue.strV "42")]) ≠ some t)
    ∧ MimicPatient.parse_resource ⟨2026, 10, 12⟩
        (JValue.objV [("resourceType", JValue.strV "DiagnosticReport"),
          ("id", JValue.strV "42")]) {} = {} :=
  ⟨by decide,
   parse_resource_unknown_type_noop ⟨2026, 10, 12⟩ _ {} (by decide)⟩

/-- C7: for every patient state, the `data_counts` entry of the flat
mapping produced by `to_dict` holds exactly the lengths of the live
clinical sequences at the moment of the call; in particular, after
ingesting three Observation resources the `observations` count is 3,
and likewise for the other six counted sequences. -/
theorem to_dict_data_counts_exact :
    (∀ (today : Date) (st : MimicPatient),
      (MimicPatient.to_dict today st).1.lookup "data_counts" = some (JValue.objV
        [("observations", JValue.intV st.clinical_data.observations.length),
         ("vital_signs", JValue.intV st.clinical_data.vital_signs.length),
         ("lab_results", JValue.intV st.clinical_data.lab_results.length),
         ("conditions", JValue.intV st.clinical_data.conditions.length),
         ("medications", JValue.intV st.clinical_data.medications.length),
         ("encounters", JValue.intV st.clinical_data.encounters.length),
         ("procedures", JValue.intV st.clinical_data.procedures.length)]))
    ∧ ((MimicPatient.to_dict ⟨2026, 10, 12⟩
          (MimicPatient.parse_resource_list ⟨2026, 10, 12⟩
            [sampleObservation "a", sampleObservation "b", sampleObservation "c"] {})).1.lookupD
        "data_counts" JValue.nullV).lookup "observations" = some (JValue.intV 3) := by
  constructor
  · intro today st
    simp [MimicPatient.to_dict, JValue.lookup]
  · rfl

/-- C8 counterexample: with birth date 1950-01-01 and deceased date
2020-12-31 the code computes `(25932 days) // 365 = 71`, but the whole
number of calendar years (floor) from birth to the end date is 70 (the
71st birthday falls one day after the deceased date), so the computed
age does not equal the whole-years floor the claim states. -/
theorem calculate_age_not_whole_years :
    MimicPatient.calculate_age ⟨2026, 10, 12⟩ patientBorn1950Deceased ≠
      some (specWholeYearsAge ⟨1950, 1, 1⟩ ⟨2020, 12, 31⟩) := by
  have h1 : MimicPatient.calculate_age ⟨2026, 10, 12⟩ patientBorn1950Deceased = some 71 := rfl
  have h2 : specWholeYearsAge ⟨1950, 1, 1⟩ ⟨2020, 12, 31⟩ = 70 := rfl
  rw [h1, h2]
  intro h
  exact absurd (Option.some.inj h) (by decide)

/-- C8 amended: the computed age is `max 0 ((end - birth).days // 365)`
with the end date the deceased date if present and otherwise now - a
365-day-year approximation of whole years rather than the exact calendar
floor - and it is never negative. The formula is proved for both
branches: no deceased date (end = now) and deceased date present (end =
the parsed deceased date, independent of now). The claim's examples
hold: birth 1950-01-01 with now frozen at 2020-01-01 gives 70, and a
future birth date gives 0; and the deceased-branch divergence instance
gives 71 for birth 1950-01-01, deceased 2020-12-31, whatever now is. -/
theorem calculate_age_amended :
    (∀ (today : Date) (st : MimicPatient) (bs : String) (b : Date),
      st.demographics.birth_date = JValue.strV bs →
      bs ≠ "" →
      parseIsoDate bs = some b →
      st.demographics.deceased_date = JValue.nullV →
      MimicPatient.calculate_age today st =
        some (max 0 ((daysFromCivil today - daysFromCivil b).fdiv 365)))
    ∧ (∀ (today : Date) (st : MimicPatient) (bs ds : String) (b d : Date),
      st.demographics.birth_date = JValue.strV bs →
      bs ≠ "" →
      parseIsoDate bs = some b →
      st.demographics.deceased_date = JValue.strV ds →
      ds ≠ "" →
      parseIsoDate ds = some d →
      MimicPatient.calculate_age today st =
        some (max 0 ((daysFromCivil d - daysFromCivil b).fdiv 365)))
    ∧ MimicPatient.calculate_age ⟨2020, 1, 1⟩ patientBorn1950 = some 70
    ∧ MimicPatient.calculate_age ⟨2020, 1, 1⟩ patientBornFuture = some 0
    ∧ (∀ today : Date,
        MimicPatient.calculate_age today patientBorn1950Deceased = some 71) := by
  refine ⟨?_, ?_, rfl, rfl, fun _ => rfl⟩
  · intro today st bs b hb hbs hp hd
    unfold MimicPatient.calculate_age
    rw [hb, hd]
    simp [JValue.truthy, hbs, toDatetime, hp]
  · intro today st bs ds b d hb hbs hp hd hds hpd
    unfold MimicPatient.calculate_age
    rw [hb, hd]
    simp [JValue.truthy, hbs, hds, toDatetime, hp, hpd]

/-- Witness for the amended C8: the no-deceased branch at the
1950-01-01 / 2020-01-01 instance (formula yields 70) and the deceased
branch at birth 1950-01-01, deceased 2020-12-31 (formula yields 71),
each hypothesis discharged at the concrete input. -/
theorem calculate_age_amended_witness :
    (MimicPatient.calculate_age ⟨2020, 1, 1⟩ patientBorn1950 =
      some (max 0 ((daysFromCivil ⟨2020, 1, 1⟩ - daysFromCivil ⟨1950, 1, 1⟩).fdiv 365)))
    ∧ (MimicPatient.calculate_age ⟨2026, 10, 12⟩ patientBorn1950Deceased =
      some (max 0 ((daysFromCivil ⟨2020, 12, 31⟩ - daysFromCivil ⟨1950, 1, 1⟩).fdiv 365))) :=
  ⟨calculate_age_amended.1 ⟨2020, 1, 1⟩ patientBorn1950 "1950-01-01" ⟨1950, 1, 1⟩
     rfl (by decide) rfl rfl,
   calculate_age_amended.2.1 ⟨2026, 10, 12⟩ patientBorn1950Deceased "1950-01-01" "2020-12-31"
     ⟨1950, 1, 1⟩ ⟨2020, 12, 31⟩ rfl (by decide) rfl rfl (by decide) rfl⟩

/-! Supporting lemmas: the `summary` cache entry survives every parser. -/

theorem find_map_replace (fields : List (String × JValue)) (k : String) (v : JValue)
    (h : fields.any (fun p => p.1 = k) = true) :
    ((fields.map (fun p => if p.1 = k then (k, v) else p)).find? (fun p => p.1 = k))
      = some (k, v) := by
  induction fields with
  | nil => simp at h
  | cons hd tl ih =>
    by_cases hk : hd.1 = k
    · simp [List.find?, hk]
    · have h2 : tl.any (fun p => p.1 = k) = true := by
        simpa [List.any_cons, hk] using h
      simpa [List.find?, hk] using ih h2

theorem find_append_new (fields : List (String × JValue)) (k : String) (v : JValue)
    (h : fields.any (fun p => p.1 = k) = false) :
    ((fields ++ [(k, v)]).find? (fun p => p.1 = k)) = some (k, v) := by
  induction fields with
  | nil => simp [List.find?]
  | cons hd tl ih =>
    have hk : ¬ hd.1 = k := by
      intro hh
      simp [List.any_cons, hh] at h
    have h2 : tl.any (fun p => p.1 = k) = false := by
      simpa [List.any_cons, hk] using h
    simpa [List.find?, hk] using ih h2

theorem objSet_find (fields : List (String × JValue)) (k : String) (v : JValue) :
    (((objSet fields k v).find? (fun p => p.1 = k)).map Prod.snd) = some v := by
  unfold objSet
  split
  · rw [find_map_replace fields k v (by assumption)]
    rfl
  · rename_i h
    rw [find_append_new fields k v (by rw [Bool.not_eq_true] at h; exact h)]
    rfl

namespace MimicPatient

theorem add_to_timeline_cache (e : String) (d : JValue) (st : MimicPatient) :
    (add_to_timeline e d st).analysis_cache = st.analysis_cache := by
  simp only [add_to_timeline]
  repeat' split
  all_goals rfl

theorem parse_patient_cache (r : JValue) (st : MimicPatient) :
    (parse_patient_resource r st).analysis_cache = st.analysis_cache := by
  unfold parse_patient_resource
  split <;> rfl

theorem parse_observation_cache (r : JValue) (st : MimicPatient) :
    (parse_observation_resource r st).analysis_cache = st.analysis_cache := by
  unfold parse_observation_resource
  split
  · rfl
  · rw [add_to_timeline_cache]
    dsimp only
    repeat' split
    all_goals rfl

theorem parse_condition_cache (r : JValue) (st : MimicPatient) :
    (parse_condition_resource r st).analysis_cache = st.analysis_cache := by
  unfold parse_condition_resource
  split
  · rfl
  · rw [add_to_timeline_cache]

theorem parse_medication_request_cache (r : JValue) (st : MimicPatient) :
    (parse_medication_request r st).analysis_cache = st.analysis_cache := by
  unfold parse_medication_request
  rw [add_to_timeline_cache]

theorem parse_medication_administration_cache (r : JValue) (st : MimicPatient) :
    (parse_medication_administration r st).analysis_cache = st.analysis_cache := by
  unfold parse_medication_administration
  rw [add_to_timeline_cache]

theorem parse_medication_dispense_cache (r : JValue) (st : MimicPatient) :
    (parse_medication_dispense r st).analysis_cache = st.analysis_cache := by
  unfold parse_medication_dispense
  rw [add_to_timeline_cache]

theorem parse_medication_definition_cache (r : JValue) (st : MimicPatient) :
    (parse_medication_definition r st).analysis_cache = st.analysis_cache := by
  unfold parse_medication_definition
  split <;> (try split) <;> rfl

theorem parse_medication_cache (r : JValue) (st : MimicPatient) :
    (parse_medication_resource r st).analysis_cache = st.analysis_cache := by
  unfold parse_medication_resource
  split <;>
    simp [parse_medication_request_cache, parse_medication_administration_cache,
      parse_medication_dispense_cache, parse_medication_definition_cache]

theorem parse_encounter_cache (now : Date) (r : JValue) (st : MimicPatient) :
    (parse_encounter_resource now r st).analysis_cache = st.analysis_cache := by
  unfold parse_encounter_resource
  split
  · rfl
  · rw [add_to_timeline_cache]

theorem parse_procedure_cache (r : JValue) (st : MimicPatient) :
    (parse_procedure_resource r st).analysis_cache = st.analysis_cache := by
  unfold parse_procedure_resource
  split
  · rfl
  · rw [add_to_timeline_cache]

theorem parse_location_cache (r : JValue) (st : MimicPatient) :
    (parse_location_resource r st).analysis_cache = st.analysis_cache := by
  unfold parse_location_resource
  split <;> rfl

theorem parse_specimen_cache (r : JValue) (st : MimicPatient) :
    (parse_specimen_resource r st).analysis_cache = st.analysis_cache := by
  unfold parse_specimen_resource
  split <;> rfl

set_option maxHeartbeats 1000000 in
theorem parse_resource_cache (now : Date) (r : JValue) (st : MimicPatient) :
    (parse_resource now r st).analysis_cache = st.analysis_cache := by
  unfold parse_resource
  cases h : r.lookup "resourceType" with
  | none => rfl
  | some v =>
    cases v with
    | strV t =>
      dsimp only
      split_ifs with g1 g2 g3 g4 g5 g6 g7 g8 g9 g10 g11
      · exact parse_patient_cache r st
      · exact parse_observation_cache r st
      · exact parse_condition_cache r st
      · exact parse_medication_cache r st
      · exact parse_medication_cache r st
      · exact parse_medication_cache r st
      · exact parse_medication_cache r st
      · exact parse_encounter_cache now r st
      · exact parse_procedure_cache r st
      · exact parse_location_cache r st
      · exact parse_specimen_cache r st
      · rfl
    | nullV => rfl
    | boolV b => rfl
    | intV n => rfl
    | arrV xs => rfl
    | objV fs => rfl

theorem parse_resource_list_cache (now : Date) (rs : List JValue) (st : MimicPatient) :
    (parse_resource_list now rs st).analysis_cache = st.analysis_cache := by
  induction rs generalizing st with
  | nil => rfl
  | cons r rest ih =>
    unfold parse_resource_list at *
    simpa [parse_resource_cache] using ih (parse_resource now r st)

/-- Serving a cached summary: when the `summary` entry exists, the call
returns it and leaves the state untouched. -/
theorem get_summary_statistics_cached (today : Date) (st : MimicPatient) (s : JValue)
    (h : ((st.analysis_cache.find? (fun p => p.1 = "summary")).map Prod.snd) = some s) :
    get_summary_statistics today st = (s, st) := by
  unfold get_summary_statistics
  rw [h]

/-- After any call, the `summary` entry holds exactly the returned
summary. -/
theorem get_summary_statistics_fills_cache (today : Date) (st : MimicPatient) :
    (((get_summary_statistics today st).2.analysis_cache.find?
        (fun p => p.1 = "summary")).map Prod.snd)
      = some (get_summary_statistics today st).1 := by
  unfold get_summary_statistics
  cases h : (st.analysis_cache.find? (fun p => p.1 = "summary")).map Prod.snd with
  | none => simp [objSet_find]
  | some s => simp [h]

end MimicPatient

/-- C10: once `get_summary_statistics` has been called, every later call
returns the identical cached summary no matter what resources were
ingested in between (nothing invalidates the `summary` cache entry);
consequently the `clinical_summary` inside a later `to_dict` result can
disagree with that same result's freshly computed `data_counts` (shown
for a state that ingests one Observation after the summary was cached:
the embedded summary still counts 0 observations while the fresh
`data_counts` counts 1). -/
theorem summary_cache_never_invalidated :
    (∀ (today today2 now : Date) (rs : List JValue) (st : MimicPatient),
      (MimicPatient.get_summary_statistics today2
        (MimicPatient.parse_resource_list now rs
          (MimicPatient.get_summary_statistics today st).2)).1
      = (MimicPatient.get_summary_statistics today st).1)
    ∧ (((MimicPatient.to_dict ⟨2026, 10, 12⟩
          (MimicPatient.parse_resource ⟨2026, 10, 12⟩ (sampleObservation "x")
            (MimicPatient.get_summary_statistics ⟨2026, 10, 12⟩
              ({} : MimicPatient)).2)).1.lookupD "clinical_summary" JValue.nullV).lookupD
        "data_counts" JValue.nullV).lookup "observations" = some (JValue.intV 0)
    ∧ ((MimicPatient.to_dict ⟨2026, 10, 12⟩
          (MimicPatient.parse_resource ⟨2026, 10, 12⟩ (sampleObservation "x")
            (MimicPatient.get_summary_statistics ⟨2026, 10, 12⟩
              ({} : MimicPatient)).2)).1.lookupD "data_counts" JValue.nullV).lookup
        "observations" = some (JValue.intV 1) := by
  refine ⟨?_, rfl, rfl⟩
  intro today today2 now rs st
  have hfill := MimicPatient.get_summary_statistics_fills_cache today st
  have hkey : (((MimicPatient.parse_resource_list now rs
      (MimicPatient.get_summary_statistics today st).2).analysis_cache.find?
        (fun p => p.1 = "summary")).map Prod.snd)
      = some (MimicPatient.get_summary_statistics today st).1 := by
    rw [MimicPatient.parse_resource_list_cache]
    exact hfill
  rw [MimicPatient.get_summary_statistics_cached today2 _ _ hkey]

/-- C1: for every tool name, calling `processToolUse` with a
`toolUseContent` whose `content` field is a non-empty string that is not
valid JSON returns the error-signalling apology result (the safe apology
string of the spec) as an ordinary value - the embedding's total return
type is the no-raised-exception guarantee - and the session's patient
state is returned exactly as it was passed in (demographics and every
clinical sequence unchanged). -/
theorem processToolUse_malformed_content (env : SessionEnv) (toolName : String)
    (fields : List (String × JValue)) (s e : String) (pt : MimicPatient)
    (hc : (JValue.objV fields).lookup "content" = some (JValue.strV s))
    (hs : s ≠ "")
    (hj : env.jsonLoads s = .error e) :
    processToolUse env toolName (JValue.objV fields) pt = (apologyResult, pt) := by
  unfold processToolUse processToolUseBody
  simp [JValue.lookupD, hc, JValue.truthy, hs, hj, Except.map]

/-- Witness for C1: the fixture environment rejects `"not json"`. -/
theorem processToolUse_malformed_content_witness :
    processToolUse fixtureSessionEnv "find_patient"
      (JValue.objV [("content", JValue.strV "not json")]) {} = (apologyResult, {}) :=
  processToolUse_malformed_content fixtureSessionEnv "find_patient"
    [("content", JValue.strV "not json")] "not json"
    "Expecting value: line 1 column 1 (char 0)" {} rfl (by decide) rfl

/-- C2: when the layered awaits of the inbound event-processing loop time
out with no backend data, the iteration sends exactly one heartbeat event
to the model stream, the loop proceeds to its next iteration (no
termination), and the session state - in particular `is_active` - is
unchanged and still Active. -/
theorem heartbeat_on_timeout (env : SessionEnv) (st : SessionState)
    (ha : st.is_active = true) (hs : st.stream_open = true) :
    (process_responses_iteration env st .timeout).loop_continues = true
    ∧ (process_responses_iteration env st .timeout).sent_to_stream = [heartbeat_event env]
    ∧ (process_responses_iteration env st .timeout).state = st
    ∧ (process_responses_iteration env st .timeout).state.is_active = true := by
  simp [process_responses_iteration, send_heartbeat, send_raw_event, ha, hs]

/-- Witness for C2 at the Active fixture session. -/
theorem heartbeat_on_timeout_witness :
    (process_responses_iteration fixtureSessionEnv fixtureSessionState
        .timeout).sent_to_stream = [heartbeat_event fixtureSessionEnv]
    ∧ (process_responses_iteration fixtureSessionEnv fixtureSessionState
        .timeout).state.is_active = true :=
  ⟨(heartbeat_on_timeout fixtureSessionEnv fixtureSessionState rfl rfl).2.1,
   (heartbeat_on_timeout fixtureSessionEnv fixtureSessionState rfl rfl).2.2.2⟩

/-- C3 counterexample: at a concrete tool-triggering `contentEnd` of
payload type TOOL, the outbound client queue of that iteration starts
with the synthetic `contentStart` tool event, not with the triggering
`contentEnd`: the queue order is the three synthetic events first and
the triggering `contentEnd` last, so the claimed
trigger-first-then-synthetics order is false. -/
theorem tool_events_queued_before_trigger :
    ((process_responses_iteration fixtureSessionEnv fixtureSessionState
        (.chunkBytes "CE")).queued.map eventKindOf)
      ≠ [some "contentEnd", some "contentStart", some "toolResult", some "contentEnd"] := by
  intro h
  rw [show ((process_responses_iteration fixtureSessionEnv fixtureSessionState
      (.chunkBytes "CE")).queued.map eventKindOf)
    = [some "contentStart", some "toolResult", some "contentEnd", some "contentEnd"] from rfl] at h
  exact absurd h (by decide)

/-- C3 amended: for every decoded `contentEnd` event of payload type TOOL
that triggers tool execution, the iteration puts the three synthesized
tool-exchange events (content-start, tool-result, content-end) on the
outbound client queue immediately BEFORE the triggering `contentEnd`,
which is enqueued right after them by the loop's outer queue put; the
loop then continues. -/
theorem tool_exchange_queue_order (env : SessionEnv) (st : SessionState) (data tn : String)
    (ce : List (String × JValue))
    (hload : env.jsonLoads data =
      .ok (JValue.objV [("event", JValue.objV [("contentEnd", JValue.objV ce)])]))
    (htool : (JValue.objV ce).lookup "type" = some (JValue.strV "TOOL"))
    (hname : st.toolName = JValue.strV tn) :
    (process_responses_iteration env st (.chunkBytes data)).queued =
      [jObjSet (S2sEvent.content_start_tool ((JValue.objV ce).lookupD "promptName" JValue.nullV)
          env.newUuid st.toolUseId) "timestamp" (JValue.intV env.nowMs),
       jObjSet (S2sEvent.text_input_tool ((JValue.objV ce).lookupD "promptName" JValue.nullV)
          env.newUuid
          (if (processToolUse env tn st.toolUseContent st.patient).1.isObj then
            JValue.strV (env.jsonDumps (processToolUse env tn st.toolUseContent st.patient).1)
          else (processToolUse env tn st.toolUseContent st.patient).1))
          "timestamp" (JValue.intV env.nowMs),
       jObjSet (S2sEvent.content_end ((JValue.objV ce).lookupD "promptName" JValue.nullV)
          env.newUuid) "timestamp" (JValue.intV env.nowMs),
       JValue.objV [("event", JValue.objV [("contentEnd", JValue.objV ce)]),
         ("timestamp", JValue.intV env.nowMs)]]
    ∧ (process_responses_iteration env st (.chunkBytes data)).loop_continues = true := by
  unfold process_responses_iteration
  dsimp only
  rw [hload]
  simp only [JValue.lookup] at htool
  simp [objSet, JValue.lookup, JValue.lookupD, htool, hname]

/-- Witness for the amended C3 at the fixture session, via the general
queue-order theorem. -/
theorem tool_exchange_queue_order_witness :
    ((process_responses_iteration fixtureSessionEnv fixtureSessionState
        (.chunkBytes "CE")).queued.map eventKindOf)
      = [some "contentStart", some "toolResult", some "contentEnd", some "contentEnd"] := by
  have h := tool_exchange_queue_order fixtureSessionEnv fixtureSessionState "CE" "findPatient"
    [("type", JValue.strV "TOOL"), ("promptName", JValue.strV "p0")] rfl rfl rfl
  rw [h.1]
  rfl

/-- C4 counterexample: the plain FHIR client's `call_tool` raises a
`ValueError` past its boundary (no catch-all exists there) when the
input payload has no `tool` field, instead of returning an error-shaped
value - so the claim that call_tool never raises for both clients is
false. -/
theorem fhir_call_tool_raises_on_missing_tool :
    FhirMcpClient.call_tool fixtureFhirClientEnv
      (JValue.objV [("parameters", JValue.objV [])])
      = Except.error "ValueError: Missing tool in input payload" := rfl

/-- C4 amended: the MIMIC client's `call_tool` never raises - for every
input it either returns the router's value or converts the raised
exception into the returned `error` shape with the cache unchanged. The
plain FHIR client's remote branch converts every caught per-request
failure into a returned empty list, but its `call_tool` itself can raise
(missing tool name, malformed string input, local dispatch), as the
counterexample shows. -/
theorem adapter_error_boundary :
    (∀ (env : MimicClientEnv) (cache : PatientCache) (input : JValue),
      (∃ r, MimicFhirMcpClient.call_tool_body env cache input = .ok r
         ∧ MimicFhirMcpClient.call_tool env cache input = r)
      ∨ (∃ e, MimicFhirMcpClient.call_tool_body env cache input = .error e
         ∧ MimicFhirMcpClient.call_tool env cache input
             = (JValue.objV [("error",
                 JValue.strV ("MIMIC tool execution failed: " ++ e))], cache)))
    ∧ (∀ (env : FhirClientEnv) (fields : List (String × JValue)) (e : String),
        env.aws_enabled = true →
        ((JValue.objV fields).lookupD "tool" JValue.nullV).truthy = true →
        FhirMcpClient.awsBranchBody env ((JValue.objV fields).lookupD "tool" JValue.nullV)
          ((JValue.objV fields).lookupD "parameters" (JValue.objV [])) = .error e →
        FhirMcpClient.call_tool env (JValue.objV fields) = .ok (JValue.arrV [])) := by
  constructor
  · intro env cache input
    cases h : MimicFhirMcpClient.call_tool_body env cache input with
    | ok r => exact Or.inl ⟨r, rfl, by simp [MimicFhirMcpClient.call_tool, h]⟩
    | error e => exact Or.inr ⟨e, rfl, by simp [MimicFhirMcpClient.call_tool, h]⟩
  · intro env fields e hb ht herr
    unfold FhirMcpClient.call_tool
    simp [ht, herr, hb, Bind.bind, Except.bind, Pure.pure, Except.pure]

/-- Witness for the amended C4: a remote-branch `KeyError` (missing
`resource_type`) is converted to the returned empty list. -/
theorem adapter_error_boundary_witness :
    FhirMcpClient.call_tool fixtureFhirClientEnv
      (JValue.objV [("tool", JValue.strV "search_by_type"), ("parameters", JValue.objV [])])
      = .ok (JValue.arrV []) :=
  adapter_error_boundary.2 fixtureFhirClientEnv
    [("tool", JValue.strV "search_by_type"), ("parameters", JValue.objV [])]
    "KeyError" rfl (by decide) rfl

/-- C5: for a purely numeric query (not in the static name map, which
holds no numeric keys), the remote-mode `find_patient` issues the
identifier-based search first; when that yields no results it falls
through to the name-pattern search; and when every strategy fails it
returns the single-element synthetic Patient placeholder (a plain list,
never an error shape), having issued the four search requests in order:
identifier, name, name-pattern, text. -/
theorem find_patient_numeric_strategy (env : MimicClientEnv) (q : String)
    (hd : pyIsDigit q = true) (ht : pyStrip q = q)
    (hp : pyStartsWith q "Patient_" = false) :
    (foundPatients (make_fhir_request env (identifierSearchReq env q)) = true →
      find_patient env (JValue.objV [("query", JValue.strV q)])
        = .ok ((make_fhir_request env (identifierSearchReq env q)).2,
            [identifierSearchReq env q]))
    ∧ (foundPatients (make_fhir_request env (identifierSearchReq env q)) = false →
       foundPatients (make_fhir_request env (nameSearchReq env q)) = true →
      find_patient env (JValue.objV [("query", JValue.strV q)])
        = .ok ((make_fhir_request env (nameSearchReq env q)).2,
            [identifierSearchReq env q, nameSearchReq env q]))
    ∧ ((∀ req : FhirReq, foundPatients (make_fhir_request env req) = false) →
      find_patient env (JValue.objV [("query", JValue.strV q)])
        = .ok (JValue.arrV [syntheticPatient env q],
            [identifierSearchReq env q, nameSearchReq env q,
             containsSearchReq env q, contentSearchReq env q])) := by
  have hq : q ≠ "John Smith" := by
    intro hh
    rw [hh] at hd
    exact absurd hd (by decide)
  have hmap : NAME_TO_ID_MAP.find? (fun p => p.1 = q) = none := by
    simp [NAME_TO_ID_MAP, List.find?, Ne.symm hq]
  refine ⟨?_, ?_, ?_⟩
  · intro h1
    unfold find_patient
    simp [JValue.lookupD, JValue.lookup, ht, hmap, hd, h1,
      Bind.bind, Except.bind, Pure.pure, Except.pure]
  · intro h1 h2
    unfold find_patient
    simp [JValue.lookupD, JValue.lookup, ht, hmap, hd, h1, h2,
      Bind.bind, Except.bind, Pure.pure, Except.pure]
  · intro hall
    unfold find_patient
    simp [JValue.lookupD, JValue.lookup, ht, hmap, hd, hp, hall,
      Bind.bind, Except.bind, Pure.pure, Except.pure]

/-- Witness for C5 at the numeric query `10000032` against a backend
whose every search returns an empty bundle. -/
theorem find_patient_numeric_strategy_witness :
    find_patient fixtureMimicEnv (JValue.objV [("query", JValue.strV "10000032")])
      = .ok (JValue.arrV [syntheticPatient fixtureMimicEnv "10000032"],
          [identifierSearchReq fixtureMimicEnv "10000032",
           nameSearchReq fixtureMimicEnv "10000032",
           containsSearchReq fixtureMimicEnv "10000032",
           contentSearchReq fixtureMimicEnv "10000032"]) :=
  (find_patient_numeric_strategy fixtureMimicEnv "10000032" rfl rfl rfl).2.2 (fun _ => rfl)

/-- Helper for C9: one loop turn never publishes a partial line. -/
theorem handle_transcript_result_final (lineId : String)
    (acc : TranscribeHandlerState × List TranscriptLine) (r : TranscriptResult)
    (hacc : ∀ l ∈ acc.2, l.partial_flag = false) :
    ∀ l ∈ (handle_transcript_result lineId acc r).2, l.partial_flag = false := by
  obtain ⟨st, out⟩ := acc
  unfold handle_transcript_result
  rcases r.alternatives with _ | ⟨alternative, rest⟩
  · exact hacc
  · dsimp only
    split
    · exact hacc
    · split
      · exact hacc
      · rename_i hblank hpart
        intro l hl
        rcases List.mem_append.mp hl with h | h
        · exact hacc l h
        · rw [List.mem_singleton.mp h]
          simpa using hpart

/-- When the backend label already has a binding, the friendly-name
lookup returns it and leaves the map untouched. -/
theorem get_friendly_speaker_name_hit (m : List (String × String)) (l v : String)
    (h : ((m.find? (fun p => p.1 = l)).map Prod.snd) = some v) :
    get_friendly_speaker_name m l = (v, m) := by
  unfold get_friendly_speaker_name
  rw [h]

/-- C9 counterexample: the first distinct backend speaker label is mapped
to `doctor`, not to `primary` - the first published line of a fresh
handler carries the speaker tag `doctor`, so the claimed
`primary`/`secondary` labelling is false. -/
theorem first_speaker_not_primary :
    ((handle_transcript_event "line-1" {}
        [⟨[⟨"hello", none⟩], some "spk_0", none, none, some false⟩]).2.map
      (fun l => l.speaker)) ≠ ["primary"] := by
  intro h
  rw [show ((handle_transcript_event "line-1" {}
      [⟨[⟨"hello", none⟩], some "spk_0", none, none, some false⟩]).2.map
    (fun l => l.speaker)) = ["doctor"] from rfl] at h
  exact absurd h (by decide)

/-- C9 amended: the handler republishes only FINAL (non-partial)
transcript lines, and the locally assigned friendly labels follow a
persistent first-come mapping whose names are `doctor` for the first
distinct backend label, `patient` for the second, and `speaker_<n+1>`
for the n-th with n at least 2: an unseen label is named by the current
map size, the new binding is recorded, and an already-seen label keeps
its name for the rest of the session. -/
theorem transcript_republish_labels :
    (∀ (lineId : String) (st : TranscribeHandlerState) (results : List TranscriptResult),
      ∀ l ∈ (handle_transcript_event lineId st results).2, l.partial_flag = false)
    ∧ (∀ (m : List (String × String)) (l : String),
        (m.find? (fun p => p.1 = l)) = none →
        (get_friendly_speaker_name m l).1 =
          (if m.length = 0 then "doctor"
           else if m.length = 1 then "patient"
           else "speaker_" ++ toString (m.length + 1)))
    ∧ (∀ (m : List (String × String)) (l : String),
        (((get_friendly_speaker_name m l).2.find? (fun p => p.1 = l)).map Prod.snd)
          = some (get_friendly_speaker_name m l).1)
    ∧ (∀ (m : List (String × String)) (l : String),
        get_friendly_speaker_name (get_friendly_speaker_name m l).2 l
          = ((get_friendly_speaker_name m l).1, (get_friendly_speaker_name m l).2)) := by
  have hpersist : ∀ (m : List (String × String)) (l : String),
      (((get_friendly_speaker_name m l).2.find? (fun p => p.1 = l)).map Prod.snd)
        = some (get_friendly_speaker_name m l).1 := by
    intro m l
    unfold get_friendly_speaker_name
    cases hf : (m.find? (fun p => p.1 = l)).map Prod.snd with
    | some v => simpa using hf
    | none =>
      have hnone : m.find? (fun p => p.1 = l) = none := by
        cases hm : m.find? (fun p => p.1 = l) with
        | none => rfl
        | some pr => rw [hm] at hf; simp at hf
      dsimp only
      rw [List.find?_append, hnone]
      simp [List.find?]
  refine ⟨?_, ?_, hpersist, ?_⟩
  · intro lineId st results
    unfold handle_transcript_event
    have haux : ∀ (rs : List TranscriptResult) (acc : TranscribeHandlerState × List TranscriptLine),
        (∀ l ∈ acc.2, l.partial_flag = false) →
        ∀ l ∈ (rs.foldl (handle_transcript_result lineId) acc).2, l.partial_flag = false := by
      intro rs
      induction rs with
      | nil => intro acc hacc; exact hacc
      | cons r rest ih =>
        intro acc hacc
        exact ih _ (handle_transcript_result_final lineId acc r hacc)
    exact haux results (st, []) (by simp)
  · intro m l h
    unfold get_friendly_speaker_name
    rw [h]
    rfl
  · intro m l
    exact get_friendly_speaker_name_hit _ _ _ (hpersist m l)

/-- Witness for the amended C9: one FINAL line from a fresh handler is
published with `partial_flag` false, and the first two distinct labels
map to `doctor` and `patient`. -/
theorem transcript_republish_labels_witness :
    ((handle_transcript_event "line-1" {}
        [⟨[⟨"hello", none⟩], some "spk_0", none, none, some false⟩]).2.map
      (fun l => l.partial_flag)) = [false]
    ∧ (get_friendly_speaker_name [] "spk_0").1 = "doctor"
    ∧ (get_friendly_speaker_name [("spk_0", "doctor")] "spk_1").1 = "patient" := by
  refine ⟨?_, (transcript_republish_labels.2.1 [] "spk_0" rfl).trans rfl,
    (transcript_republish_labels.2.1 [("spk_0", "doctor")] "spk_1" rfl).trans rfl⟩
  have h := transcript_republish_labels.1 "line-1" {}
    [⟨[⟨"hello", none⟩], some "spk_0", none, none, some false⟩]
  revert h
  rw [show (handle_transcript_event "line-1" {}
      [⟨[⟨"hello", none⟩], some "spk_0", none, none, some false⟩]).2
    = [(⟨"line-1", "doctor", "hello", 0, 0, 0, false⟩ : TranscriptLine)] from rfl]
  intro h
  simp [h _ (List.mem_singleton.mpr rfl)]
